import Mathlib

set_option linter.unusedVariables false

/-!
Verification development for the gitmesh shell-command interception and
conversion pipeline.

The definitions below are a shallow embedding of the Python sources
`backend/services/cosmos_web_wrapper.py` (command classifier, command
converter, interception gate) and `backend/services/shell_command_filter.py`
(response filter).  Python strings are modelled as Lean `String` or
`List Char`, machine integers as `Nat`, the float `conversion_percentage`
as an exact rational, fallible collaborators as `Option`-valued functions.
-/

namespace Gitmesh

/-! ## Python string primitives

Helpers mirroring the exact Python string operations used by the sources.
`pyIsWs` is the ASCII whitespace set recognised by `str.strip()` /
`str.split()`; the Unicode-only whitespace code points never occur in the
commands or constants of this code base. -/

def pyIsWs (c : Char) : Bool :=
  c = ' ' || c = '\t' || c = '\n' || c = '\r' || c = '\u000B' || c = '\u000C'

/-- `str.strip()` on a character list. -/
def pyStripList (l : List Char) : List Char :=
  ((l.dropWhile pyIsWs).reverse.dropWhile pyIsWs).reverse

/-- Python `command.strip()`. -/
def pyStrip (s : String) : String :=
  String.mk (pyStripList s.data)

/-- Python `command.lower()` (commands are ASCII, so ASCII lowering suffices). -/
def pyLower (s : String) : String :=
  String.mk (s.data.map Char.toLower)

/-- Python `s.startswith(p)` (case sensitive). -/
def pyStartsWith (s p : String) : Bool :=
  p.data.isPrefixOf s.data

/-- Python `s.startswith((p1, p2, ...))`. -/
def startsAny (s : String) (ps : List String) : Bool :=
  ps.any (pyStartsWith s)

theorem dropWhile_length_le (p : Char → Bool) (l : List Char) :
    (l.dropWhile p).length ≤ l.length := by
  induction l with
  | nil => simp
  | cons c t ih =>
    simp only [List.dropWhile]
    split
    · exact Nat.le_succ_of_le ih
    · exact Nat.le_refl _

/-- Whitespace splitting, `str.split()` with no argument: tokens are maximal
runs of non-whitespace characters, empty tokens never appear.  `acc` holds
the characters of the token in progress, in reverse. -/
def pySplitAux : List Char → List Char → List (List Char)
  | [], acc => if acc.isEmpty then [] else [acc.reverse]
  | c :: cs, acc =>
    if pyIsWs c then
      if acc.isEmpty then pySplitAux cs []
      else acc.reverse :: pySplitAux cs []
    else pySplitAux cs (c :: acc)

def pySplitList (l : List Char) : List (List Char) :=
  pySplitAux l []

/-- Python `command.split()`. -/
def pySplit (s : String) : List String :=
  (pySplitList s.data).map String.mk

def isQuoteCh (c : Char) : Bool :=
  c = '\u0027' || c = '"'

/-- Python `s.strip("\x27\"")`: remove leading and trailing quote characters. -/
def pyStripQuotes (s : String) : String :=
  String.mk (((s.data.dropWhile isQuoteCh).reverse.dropWhile isQuoteCh).reverse)

/-- Substring containment on character lists, Python `sub in s`. -/
def containsSub (s sub : List Char) : Bool :=
  if sub.isPrefixOf s then true
  else
    match s with
    | [] => false
    | _ :: t => containsSub t sub

/-- Python `sub in s` for strings. -/
def pyContains (s sub : String) : Bool :=
  containsSub s.data sub.data

/-- Splitting on a newline character, Python `content.split("\n")`
(keeps empty pieces; the empty string yields one empty piece). -/
def splitNlList : List Char → List (List Char)
  | [] => [[]]
  | c :: t =>
    match splitNlList t with
    | [] => [[c]]
    | h :: hs => if c = '\n' then [] :: h :: hs else (c :: h) :: hs

def splitLines (s : String) : List String :=
  (splitNlList s.data).map String.mk

/-- `"\n".join(parts)`. -/
def strJoinNl (parts : List String) : String :=
  String.intercalate "\n" parts

/-- The Python format spec `f"{n:>8}"`: decimal rendering right-aligned in a
field of width 8 (wider numbers are not truncated). -/
def padLeft8 (s : String) : String :=
  String.mk (List.replicate (8 - s.length) ' ') ++ s

/-! ## Repository accessor

External collaborator interface consumed by the converter:
`RedisRepoManager.list_files`, `get_file_content`, `get_file_metadata`.
Only the `size` field of the metadata record is read by the embedded
operations; the remaining metadata fields are immaterial here. -/

structure FileMeta where
  name : String
  size : Nat
  language : String
deriving Repr

structure RepoAccessor where
  files : List String
  content : String → Option String
  metadata : String → Option FileMeta

/-! ## Command converter

Embedding of `CosmosWebWrapper._convert_shell_command` and its per-command
handlers.  Handlers receive the stripped command string, exactly as in the
source, where `command = command.strip()` is reassigned before dispatch. -/

/-- Sorting used by `sorted(files)`: lexicographic string order.  String
order is total and antisymmetric, so any correct sort yields the same
list as the Python sort; insertion sort is used because it reduces inside
the kernel. -/
def sortedPaths (files : List String) : List String :=
  files.insertionSort (· ≤ ·)

/-- One line of the `ls` listing for one file path (the body of the
source loop): the size right-aligned in an eight-character field when
metadata is available, a `?` marker otherwise. -/
def listLine (repo : RepoAccessor) (fp : String) : String :=
  match repo.metadata fp with
  | some m => padLeft8 (toString m.size) ++ " " ++ fp
  | none => "        ? " ++ fp

/-- `CosmosWebWrapper._handle_list_files`. -/
def handleListFiles (command : String) (repo : RepoAccessor) : String :=
  let files := repo.files
  if files.isEmpty then "No files found in repository"
  else strJoinNl ((sortedPaths files).map (listLine repo))

/-- `CosmosWebWrapper._handle_cat_file`. -/
def handleCatFile (command : String) (repo : RepoAccessor) : String :=
  match pySplit command with
  | _ :: filename :: _ =>
    (match repo.content filename with
     | none => "File not found: " ++ filename
     | some content => content)
  | _ => "Usage: cat <filename>"

/-- Glob matching as in `fnmatch.fnmatch` on a case-sensitive file system:
`*` and `?` wildcards plus `[...]`/`[!...]` character sets with ranges.
An unterminated `[` matches itself literally, as in `fnmatch.translate`. -/
def globClassMatch (c : Char) : List Char → Bool
  | a :: '-' :: b :: rest =>
    if b = ']' then (c = a || c = '-') || globClassMatch c (b :: rest)
    else (a ≤ c && c ≤ b) || globClassMatch c rest
  | a :: rest => c = a || globClassMatch c rest
  | [] => false

/-- Splits a glob bracket expression at its closing `]`; fails when there is
no closing bracket. -/
def globFindClose : List Char → Option (List Char × List Char)
  | [] => none
  | c :: rest =>
    if c = ']' then some ([], rest)
    else
      match globFindClose rest with
      | some (body, after) => some (c :: body, after)
      | none => none

/-- The fuel argument strictly exceeds `p.length + s.length`, which every
recursive call decreases, so it is never exhausted; fuel keeps the
recursion structural. -/
def globMatchF : Nat → List Char → List Char → Bool
  | 0, _, _ => false
  | _ + 1, [], [] => true
  | _ + 1, [], _ :: _ => false
  | fuel + 1, '*' :: p, s =>
    globMatchF fuel p s ||
    (match s with
     | [] => false
     | _ :: s2 => globMatchF fuel ('*' :: p) s2)
  | fuel + 1, '?' :: p, s =>
    (match s with
     | [] => false
     | _ :: s2 => globMatchF fuel p s2)
  | fuel + 1, '[' :: p, s =>
    (match globFindClose p with
     | some (body, after) =>
       (match s with
        | [] => false
        | c :: s2 =>
          (match body with
           | '!' :: bodyNeg => (!globClassMatch c bodyNeg) && globMatchF fuel after s2
           | _ => globClassMatch c body && globMatchF fuel after s2))
     | none =>
       match s with
       | '[' :: s2 => globMatchF fuel p s2
       | _ => false)
  | fuel + 1, a :: p, s =>
    (match s with
     | [] => false
     | c :: s2 => c = a && globMatchF fuel p s2)

def globMatch (p s : List Char) : Bool :=
  globMatchF (p.length + s.length + 1) p s

def fnmatch (name pattern : String) : Bool :=
  globMatch pattern.data name.data

/-- `CosmosWebWrapper._handle_find_files`. -/
def handleFindFiles (command : String) (repo : RepoAccessor) : String :=
  let files := repo.files
  let files :=
    if pyContains command "-name" then
      match (command.splitOn "-name") with
      | _ :: second :: _ =>
        let pat := pyStripQuotes (pyStrip second)
        files.filter (fun f => fnmatch f pat)
      | _ => files
    else files
  strJoinNl (sortedPaths files)

/-- The grep result lines (the body of the source loop): for each
requested file with non-empty content, every 1-based-numbered line that
contains the pattern as a plain substring, rendered as
`path:line_number:line_content`. -/
def grepMatches (pattern : String) (filesToSearch : List String)
    (repo : RepoAccessor) : List String :=
  filesToSearch.flatMap (fun fp =>
    match repo.content fp with
    | some content =>
      if content ≠ "" then
        (splitLines content).enum.filterMap (fun p =>
          if pyContains p.2 pattern then
            some (fp ++ ":" ++ toString (p.1 + 1) ++ ":" ++ p.2)
          else none)
      else []
    | none => [])

/-- `CosmosWebWrapper._handle_grep_files`. -/
def handleGrepFiles (command : String) (repo : RepoAccessor) : String :=
  match pySplit command with
  | _ :: rawpat :: rest =>
    let pattern := pyStripQuotes rawpat
    let filesToSearch := if rest.isEmpty then repo.files else rest
    let results := grepMatches pattern filesToSearch repo
    if results.isEmpty then
      "Pattern \x27" ++ pattern ++ "\x27 not found"
    else strJoinNl results
  | _ => "Usage: grep <pattern> [files...]"

def gitBlockedMessage (c : String) : String :=
  "Git operations are not supported in web mode. Command blocked: " ++ c

/-- `CosmosWebWrapper._convert_shell_command`: prefix dispatch over the
stripped command; unrecognised commands yield `none`. -/
def convertShellCommand (command : String) (repo : RepoAccessor) : Option String :=
  let c := pyStrip command
  if pyStartsWith c "ls" || pyStartsWith c "dir" then some (handleListFiles c repo)
  else if pyStartsWith c "cat" || pyStartsWith c "type" then some (handleCatFile c repo)
  else if pyStartsWith c "find" then some (handleFindFiles c repo)
  else if pyStartsWith c "grep" then some (handleGrepFiles c repo)
  else if pyStartsWith c "git" then some (gitBlockedMessage c)
  else if pyStartsWith c "mkdir" then
    some "Directory creation is handled automatically in web mode."
  else if pyStartsWith c "touch" then
    some "File creation is handled automatically in web mode."
  else if pyStartsWith c "rm" then
    some "File deletion is not supported in web mode for safety."
  else if pyStartsWith c "cp" || pyStartsWith c "copy" then
    some "File copying is not supported in web mode."
  else if pyStartsWith c "mv" || pyStartsWith c "move" then
    some "File moving is not supported in web mode."
  else none

end Gitmesh

namespace Gitmesh

/-! ## Command classification and priority

`ConversionType`, `ConversionPriority` and the tracking status/requests live
in `models/api/conversion_tracking.py`, which is not part of the shipped
sources; the enums are therefore modelled from the spec.  The classifier and
priority functions themselves are embedded from
`cosmos_web_wrapper.py`. -/

/-- Modelled from the spec: the command-type taxonomy of
`models/api/conversion_tracking.ConversionType`, per the spec data-model
section (eleven members, with `SHELL_COMMAND` the fallback).  Each member
carries the string value used by the Python `str`-valued enum. -/
inductive ConversionType
  | DIRECTORY_OPERATION
  | FILE_OPERATION
  | SEARCH_OPERATION
  | GIT_OPERATION
  | PACKAGE_INSTALL
  | SYSTEM_COMMAND
  | BUILD_COMMAND
  | TEST_COMMAND
  | DEPLOYMENT
  | NETWORK_COMMAND
  | SHELL_COMMAND
deriving DecidableEq, Repr

/-- Modelled from the spec: `models/api/conversion_tracking.ConversionPriority`
(LOW, MEDIUM, HIGH, CRITICAL). -/
inductive ConversionPriority
  | LOW
  | MEDIUM
  | HIGH
  | CRITICAL
deriving DecidableEq, Repr

/-- `CosmosWebWrapper._classify_command_type`: prefix rules over the
stripped, lowercased command; `SHELL_COMMAND` is the fallback. -/
def classifyCommandType (command : String) : ConversionType :=
  let c := pyLower (pyStrip command)
  if startsAny c ["ls", "dir", "find"] then ConversionType.DIRECTORY_OPERATION
  else if startsAny c ["cat", "type", "head", "tail", "less", "more"] then
    ConversionType.FILE_OPERATION
  else if startsAny c ["grep", "awk", "sed"] then ConversionType.SEARCH_OPERATION
  else if pyStartsWith c "git" then ConversionType.GIT_OPERATION
  else if startsAny c ["mkdir", "rmdir", "rm", "cp", "mv", "touch"] then
    ConversionType.FILE_OPERATION
  else ConversionType.SHELL_COMMAND

/-- `CosmosWebWrapper._determine_command_priority`. -/
def determineCommandPriority (command : String) : ConversionPriority :=
  let c := pyLower (pyStrip command)
  if startsAny c ["ls", "cat", "grep", "find"] then ConversionPriority.HIGH
  else if startsAny c ["git", "cd"] then ConversionPriority.CRITICAL
  else if startsAny c ["head", "tail", "less", "more", "awk", "sed"] then
    ConversionPriority.LOW
  else ConversionPriority.MEDIUM

/-! ## Interception gate

Embedding of `CosmosWebWrapper._intercept_shell_command` together with the
session state it mutates (`_shell_commands_intercepted` and the
`ConversionStatus` dataclass initialised in `CosmosWebWrapper.__init__`).
`last_conversion` stores `datetime.now()`; time is modelled as an opaque
`Nat` supplied by the caller.  The conversion tracking service is an
external asynchronous collaborator whose calls are wrapped in
`try/except` blocks that log and swallow every exception, so it is
modelled as a behaviour record saying which calls raise; the gate emits
the tracking events that reached the service.  (In the source the name
`ConversionStatus` imported from the tracking models is shadowed by the
local dataclass, so the status constants used in the update requests can
themselves raise `AttributeError` inside the same `try` blocks; the
behaviour record covers that failure mode as well.) -/

/-- The `ConversionStatus` dataclass of `cosmos_web_wrapper.py` (running
counters for shell-to-web conversion). -/
structure ConversionStatus where
  total_operations : Nat
  converted_operations : Nat
  pending_conversions : List String
  conversion_percentage : ℚ
  last_conversion : Option Nat
deriving Repr, DecidableEq

/-- Mutable wrapper state touched by the interception gate. -/
structure WrapperState where
  intercepted : List String
  status : ConversionStatus
deriving Repr, DecidableEq

/-- The state set up by `CosmosWebWrapper.__init__`. -/
def freshState : WrapperState :=
  { intercepted := []
    status :=
      { total_operations := 0
        converted_operations := 0
        pending_conversions := []
        conversion_percentage := 0
        last_conversion := none } }

/-- Which tracking calls complete without raising. -/
structure TrackerBehavior where
  createOk : Bool
  updProgressOk : Bool
  updTerminalOk : Bool

/-- Lifecycle events that actually reach the conversion tracking service. -/
inductive TrackEvent
  | created (opType : ConversionType) (prio : ConversionPriority) (cmd : String)
  | inProgress
  | completed (output : String)
  | failed (errorMessage : String)
deriving Repr, DecidableEq

/-- `CosmosWebWrapper._intercept_shell_command`.  Returns the synthetic
`(return_code, output)` pair, the updated wrapper state, and the tracking
events delivered to the conversion tracking service.  The source gate
tests Python truthiness (`if converted_output:`), so a conversion that
returns the empty string takes the blocked branch exactly like an
unconvertible command. -/
def interceptShellCommand (repo : RepoAccessor) (sessionId : Option String)
    (tb : TrackerBehavior) (now : Nat) (command : String) (st : WrapperState) :
    (Nat × String) × WrapperState × List TrackEvent :=
  let st :=
    { st with
      intercepted := st.intercepted ++ [command]
      status := { st.status with
                  total_operations := st.status.total_operations + 1 } }
  let (opId, evs) : Option Unit × List TrackEvent :=
    match sessionId with
    | none => (none, [])
    | some _ =>
      if tb.createOk then
        if tb.updProgressOk then
          (some (),
           [TrackEvent.created (classifyCommandType command)
              (determineCommandPriority command) command,
            TrackEvent.inProgress])
        else
          (some (),
           [TrackEvent.created (classifyCommandType command)
              (determineCommandPriority command) command])
      else (none, [])
  match convertShellCommand command repo with
  | some convertedOutput =>
    if convertedOutput = "" then
      let st :=
        { st with
          status := { st.status with
                      pending_conversions :=
                        st.status.pending_conversions ++ [command] } }
      let evs := evs ++
        (match opId with
         | some _ =>
           if tb.updTerminalOk then
             [TrackEvent.failed
                ("No web-safe equivalent available for command: " ++ command)]
           else []
         | none => [])
      ((1, "Shell command blocked for web safety: " ++ command), st, evs)
    else
      let conv := st.status.converted_operations + 1
      let st :=
        { st with
          status := { st.status with
                      converted_operations := conv
                      last_conversion := some now
                      conversion_percentage :=
                        (conv : ℚ) / (st.status.total_operations : ℚ) * 100 } }
      let evs := evs ++
        (match opId with
         | some _ =>
           if tb.updTerminalOk then [TrackEvent.completed convertedOutput] else []
         | none => [])
      ((0, convertedOutput), st, evs)
  | none =>
    let st :=
      { st with
        status := { st.status with
                    pending_conversions :=
                      st.status.pending_conversions ++ [command] } }
    let evs := evs ++
      (match opId with
       | some _ =>
         if tb.updTerminalOk then
           [TrackEvent.failed
              ("No web-safe equivalent available for command: " ++ command)]
         else []
       | none => [])
    ((1, "Shell command blocked for web safety: " ++ command), st, evs)

/-- Runs a sequence of interceptions, threading the wrapper state. -/
def runIntercepts (repo : RepoAccessor) (sessionId : Option String)
    (tb : TrackerBehavior) (now : Nat) (cmds : List String)
    (st : WrapperState) : WrapperState :=
  cmds.foldl (fun s c => (interceptShellCommand repo sessionId tb now c s).2.1) st

end Gitmesh


namespace Gitmesh

/-! ## Response filter: regex engine

`shell_command_filter.py` drives Python `re` with a fixed set of patterns,
all compiled with `IGNORECASE` (plus `MULTILINE`, inert here since no
pattern uses anchors, and `DOTALL` for the fenced-code-block pattern).
The engine below implements exactly the constructs those patterns use —
literals, character classes over `\w` `\s` `\d` and literal characters,
greedy and lazy repetition, alternation, optional groups — with the
backtracking priority order of the Python engine (leftmost position
first, then greedy-longest / lazy-shortest, alternatives left to right),
via a continuation-passing matcher that returns the first success.

Text is handled as a list of Unicode code points (`List Nat`, the exact
code points of the Python `str` values); `strToCodes` and `codesToStr`
convert at the `String` boundary.

Python `\w` is Unicode alphanumeric plus underscore and `\s` is Unicode
whitespace; the predicates below restrict those categories to ASCII plus
the non-ASCII code points that occur in the string constants of
`shell_command_filter.py`, which is exhaustive for every string this
development evaluates. -/

def strToCodes (s : String) : List Nat :=
  s.data.map Char.toNat

def codesToStr (l : List Nat) : String :=
  String.mk (l.map Char.ofNat)

/-- Python `\w` on the code points this development can encounter:
ASCII alphanumerics, underscore, and the non-ASCII letter code points
occurring in the constants of `shell_command_filter.py`
(U+00AA, U+00E2, U+00EF, U+00F0, U+0152, U+0161, U+0178). -/
def isWordCode (n : Nat) : Bool :=
  (97 ≤ n && n ≤ 122) || (65 ≤ n && n ≤ 90) || (48 ≤ n && n ≤ 57) || n == 95 ||
  n == 0xAA || n == 0xE2 || n == 0xEF || n == 0xF0 ||
  n == 0x152 || n == 0x161 || n == 0x178

/-- Python `\s` (no Unicode-only space code point occurs in this code base). -/
def isSpaceCode (n : Nat) : Bool :=
  n == 32 || n == 9 || n == 10 || n == 13 || n == 11 || n == 12

def isDigitCode (n : Nat) : Bool :=
  48 ≤ n && n ≤ 57

/-- ASCII lowercasing of a code point, the effect of `IGNORECASE` on the
(all lowercase or caseless) pattern literals. -/
def toLowerCode (n : Nat) : Nat :=
  if 65 ≤ n && n ≤ 90 then n + 32 else n

/-- An element of a regex character class (literals are code points). -/
inductive ClsItem
  | ch (c : Nat)
  | wordC
  | spaceC
  | digitC
deriving Repr

def clsItemMatch (x : Nat) : ClsItem → Bool
  | ClsItem.ch c => toLowerCode x == c
  | ClsItem.wordC => isWordCode x
  | ClsItem.spaceC => isSpaceCode x
  | ClsItem.digitC => isDigitCode x

/-- A single-character regex atom. -/
inductive RAtom
  | lit (c : Nat)
  | cls (neg : Bool) (items : List ClsItem)
  | anyC
deriving Repr

def atomMatch (a : RAtom) (x : Nat) : Bool :=
  match a with
  | RAtom.lit c => toLowerCode x == c
  | RAtom.cls neg items =>
    let m := items.any (clsItemMatch x)
    if neg then !m else m
  | RAtom.anyC => true

/-- Regexes as used by the filter patterns.  Repetition only ever applies
to a single atom in those patterns, except the optional language tag of
the fenced-code-block pattern, covered by `optR`. -/
inductive RE
  | eps
  | atom (a : RAtom)
  | cat (r s : RE)
  | altR (r s : RE)
  | starA (greedy : Bool) (a : RAtom)
  | plusA (a : RAtom)
  | optR (r : RE)
deriving Repr

/-- A sequence of literal characters. -/
def reLits (s : String) : RE :=
  s.data.foldr (fun c r => RE.cat (RE.atom (RAtom.lit c.toNat)) r) RE.eps

def reSeq (l : List RE) : RE := l.foldr RE.cat RE.eps

def reAlts : List RE → RE
  | [] => RE.eps
  | [r] => r
  | r :: rest => RE.altR r (reAlts rest)

/-- The remainders reachable by repeatedly consuming characters matched by
the atom, most-consumed first (an explicit backtracking stack, so that
evaluation of long repetitions stays iterative). -/
def starTails (a : RAtom) : List Nat → List (List Nat) → List (List Nat)
  | [], acc => [] :: acc
  | s@(c :: cs), acc =>
    if atomMatch a c then starTails a cs (s :: acc) else s :: acc

/-- First success of the continuation over the candidate remainders. -/
def firstSome (k : List Nat → Option (List Nat)) :
    List (List Nat) → Option (List Nat)
  | [] => none
  | x :: xs =>
    match k x with
    | some r => some r
    | none => firstSome k xs

/-- Greedy star over an atom: prefer consuming more characters. -/
def starG (a : RAtom) (k : List Nat → Option (List Nat))
    (s : List Nat) : Option (List Nat) :=
  firstSome k (starTails a s [])

/-- Lazy star over an atom: prefer consuming fewer characters. -/
def starL (a : RAtom) (k : List Nat → Option (List Nat))
    (s : List Nat) : Option (List Nat) :=
  firstSome k (starTails a s []).reverse

/-- Backtracking matcher in continuation-passing style; returns the first
success in the backtracking priority order of the Python engine.  The
continuation receives the unconsumed remainder. -/
def matRE : RE → List Nat → (List Nat → Option (List Nat)) →
    Option (List Nat)
  | RE.eps, s, k => k s
  | RE.atom a, s, k =>
    (match s with
     | [] => none
     | c :: cs => if atomMatch a c then k cs else none)
  | RE.cat r1 r2, s, k => matRE r1 s (fun s2 => matRE r2 s2 k)
  | RE.altR r1 r2, s, k =>
    (match matRE r1 s k with
     | some r => some r
     | none => matRE r2 s k)
  | RE.starA g a, s, k => if g then starG a k s else starL a k s
  | RE.plusA a, s, k =>
    (match s with
     | [] => none
     | c :: cs => if atomMatch a c then starG a k cs else none)
  | RE.optR r, s, k =>
    (match matRE r s k with
     | some res => some res
     | none => k s)

/-- Tail-recursive list length (`acc` plus the length of `l`); used in the
scanning loops so that kernel evaluation stays iterative. -/
def tlen (l : List Nat) (acc : Nat) : Nat :=
  match l with
  | [] => acc
  | _ :: t => tlen t (acc + 1)

theorem tlen_eq (l : List Nat) (acc : Nat) : tlen l acc = l.length + acc := by
  induction l generalizing acc with
  | nil => simp [tlen]
  | cons c t ih => simp [tlen, ih]; omega

/-- Length of the match starting at the head of `s`, when there is one. -/
def matchLenAt (r : RE) (s : List Nat) (len : Nat) : Option Nat :=
  match matRE r s some with
  | some rest => some (len - tlen rest 0)
  | none => none

/-- The leading literal code points a regex must consume first, along its
mandatory spine (`Bool` records whether the regex was exhausted into
exactly those literals, so that literals of a following factor may be
appended).  A match of `r` can only start at a position whose first
characters lowercase to `(leadLits r).1`; positions failing that cheap
test are skipped by the scanners below without running the full
backtracking matcher.  This is a pure evaluation-speed device and does
not change which matches are found. -/
def leadLits : RE → (List Nat × Bool)
  | RE.eps => ([], true)
  | RE.atom (RAtom.lit c) => ([c], true)
  | RE.atom _ => ([], false)
  | RE.cat r1 r2 =>
    (match leadLits r1 with
     | (l1, true) =>
       (match leadLits r2 with
        | (l2, e2) => (l1 ++ l2, e2))
     | (l1, false) => (l1, false))
  | RE.plusA (RAtom.lit c) => ([c], false)
  | _ => ([], false)

/-- Does the position pass the leading-literal prescreen (at most the
first two mandatory literals are compared)? -/
def leadOk (lead s : List Nat) : Bool :=
  match lead, s with
  | a :: rest, c :: cs =>
    toLowerCode c == a &&
    (match rest, cs with
     | b :: _, d :: _ => toLowerCode d == b
     | _ :: _, [] => false
     | [], _ => true)
  | _ :: _, [] => false
  | [], _ => true

/-- Positions (ascending) that pass the leading-literal prescreen; a match
can only start at one of them.  The position at the very end of the input
is a candidate only when the regex has no leading literal, matching the
behaviour of the plain scanner on the empty remainder. -/
def leadScan (lead : List Nat) : Nat → List Nat → List Nat
  | pos, [] => if leadOk lead [] then [pos] else []
  | pos, s@(_ :: cs) =>
    if leadOk lead s then pos :: leadScan lead (pos + 1) cs
    else leadScan lead (pos + 1) cs

/-- `drop` on code lists, recursing on the list so that kernel reduction
never builds deep `Nat` recursion towers. -/
def dropCodes : List Nat → Nat → List Nat
  | [], _ => []
  | s@(_ :: t), n =>
    match n with
    | 0 => s
    | m + 1 => dropCodes t m

/-- `take` on code lists, recursing on the list. -/
def takeCodes : List Nat → Nat → List Nat
  | [], _ => []
  | c :: t, n =>
    match n with
    | 0 => []
    | m + 1 => c :: takeCodes t m

/-- Attempts the full matcher at each candidate position in order,
honouring the non-overlap rule of `re.finditer`: candidates inside an
already-emitted match are skipped, and a zero-length match advances by
one position. -/
def tryCandidates (r : RE) (s : List Nat) (len : Nat) :
    Nat → List Nat → List (Nat × Nat)
  | _, [] => []
  | minPos, p :: ps =>
    if p < minPos then tryCandidates r s len minPos ps
    else
      match matchLenAt r (dropCodes s p) (len - p) with
      | some n =>
        if n = 0 then (p, 0) :: tryCandidates r s len (p + 1) ps
        else (p, n) :: tryCandidates r s len (p + n) ps
      | none => tryCandidates r s len minPos ps

/-- `re.finditer`: non-overlapping matches, leftmost first, as
`(start, length)` pairs.  (No source pattern can match the empty
string.) -/
def findIter (r : RE) (s : List Nat) : List (Nat × Nat) :=
  tryCandidates r s (tlen s 0) 0 (leadScan ((leadLits r).1.take 2) 0 s)

/-- `re.search`: does the pattern match anywhere in `s`? -/
def reSearchCands (r : RE) (s : List Nat) (len : Nat) : List Nat → Bool
  | [] => false
  | p :: ps =>
    (matchLenAt r (dropCodes s p) (len - p)).isSome || reSearchCands r s len ps

def reSearch (r : RE) (s : List Nat) : Bool :=
  reSearchCands r s (tlen s 0) (leadScan ((leadLits r).1.take 2) 0 s)

end Gitmesh

namespace Gitmesh

/-! ## Response filter: pattern tables

`ShellCommandType` is the `str` enum of `shell_command_filter.py`; each
member carries its string value.  The pattern lists and alternative texts
below are the exact contents of `_initialize_shell_patterns` and
`_initialize_alternatives`, in source (insertion) order; each pattern is
annotated with the original regex. -/

inductive ShellCommandType
  | PACKAGE_INSTALL
  | FILE_OPERATION
  | GIT_OPERATION
  | SYSTEM_COMMAND
  | BUILD_COMMAND
  | TEST_COMMAND
  | DEPLOYMENT
  | NETWORK_COMMAND
deriving DecidableEq, Repr

/-- String value carried by each `ShellCommandType` member. -/
def ShellCommandType.val : ShellCommandType → String
  | PACKAGE_INSTALL => "package_install"
  | FILE_OPERATION => "file_operation"
  | GIT_OPERATION => "git_operation"
  | SYSTEM_COMMAND => "system_command"
  | BUILD_COMMAND => "build_command"
  | TEST_COMMAND => "test_command"
  | DEPLOYMENT => "deployment"
  | NETWORK_COMMAND => "network_command"

/-- All members of `ShellCommandType`, in declaration order. -/
def allShellCommandTypes : List ShellCommandType :=
  [ShellCommandType.PACKAGE_INSTALL, ShellCommandType.FILE_OPERATION,
   ShellCommandType.GIT_OPERATION, ShellCommandType.SYSTEM_COMMAND,
   ShellCommandType.BUILD_COMMAND, ShellCommandType.TEST_COMMAND,
   ShellCommandType.DEPLOYMENT, ShellCommandType.NETWORK_COMMAND]

/-- The PACKAGE_INSTALL regex pattern list of ShellCommandFilter, in source order.
Character class literals are code points. -/
def patsPackageInstall : List RE := [
  -- pip\s+install\s+[\w\-\[\]\.]+
  reSeq [reLits "pip", RE.plusA (RAtom.cls false [ClsItem.spaceC]), reLits "install", RE.plusA (RAtom.cls false [ClsItem.spaceC]), RE.plusA (RAtom.cls false [ClsItem.wordC, ClsItem.ch 45, ClsItem.ch 91, ClsItem.ch 93, ClsItem.ch 46])],
  -- npm\s+install\s+[\w\-@/]+
  reSeq [reLits "npm", RE.plusA (RAtom.cls false [ClsItem.spaceC]), reLits "install", RE.plusA (RAtom.cls false [ClsItem.spaceC]), RE.plusA (RAtom.cls false [ClsItem.wordC, ClsItem.ch 45, ClsItem.ch 64, ClsItem.ch 47])],
  -- yarn\s+add\s+[\w\-@/]+
  reSeq [reLits "yarn", RE.plusA (RAtom.cls false [ClsItem.spaceC]), reLits "add", RE.plusA (RAtom.cls false [ClsItem.spaceC]), RE.plusA (RAtom.cls false [ClsItem.wordC, ClsItem.ch 45, ClsItem.ch 64, ClsItem.ch 47])],
  -- apt\s+install\s+[\w\-]+
  reSeq [reLits "apt", RE.plusA (RAtom.cls false [ClsItem.spaceC]), reLits "install", RE.plusA (RAtom.cls false [ClsItem.spaceC]), RE.plusA (RAtom.cls false [ClsItem.wordC, ClsItem.ch 45])],
  -- brew\s+install\s+[\w\-]+
  reSeq [reLits "brew", RE.plusA (RAtom.cls false [ClsItem.spaceC]), reLits "install", RE.plusA (RAtom.cls false [ClsItem.spaceC]), RE.plusA (RAtom.cls false [ClsItem.wordC, ClsItem.ch 45])],
  -- conda\s+install\s+[\w\-]+
  reSeq [reLits "conda", RE.plusA (RAtom.cls false [ClsItem.spaceC]), reLits "install", RE.plusA (RAtom.cls false [ClsItem.spaceC]), RE.plusA (RAtom.cls false [ClsItem.wordC, ClsItem.ch 45])],
  -- poetry\s+add\s+[\w\-]+
  reSeq [reLits "poetry", RE.plusA (RAtom.cls false [ClsItem.spaceC]), reLits "add", RE.plusA (RAtom.cls false [ClsItem.spaceC]), RE.plusA (RAtom.cls false [ClsItem.wordC, ClsItem.ch 45])],
  -- composer\s+install\s+[\w\-/]+
  reSeq [reLits "composer", RE.plusA (RAtom.cls false [ClsItem.spaceC]), reLits "install", RE.plusA (RAtom.cls false [ClsItem.spaceC]), RE.plusA (RAtom.cls false [ClsItem.wordC, ClsItem.ch 45, ClsItem.ch 47])],
  -- gem\s+install\s+[\w\-]+
  reSeq [reLits "gem", RE.plusA (RAtom.cls false [ClsItem.spaceC]), reLits "install", RE.plusA (RAtom.cls false [ClsItem.spaceC]), RE.plusA (RAtom.cls false [ClsItem.wordC, ClsItem.ch 45])],
  -- cargo\s+install\s+[\w\-]+
  reSeq [reLits "cargo", RE.plusA (RAtom.cls false [ClsItem.spaceC]), reLits "install", RE.plusA (RAtom.cls false [ClsItem.spaceC]), RE.plusA (RAtom.cls false [ClsItem.wordC, ClsItem.ch 45])]
]

/-- The FILE_OPERATION regex pattern list of ShellCommandFilter, in source order.
Character class literals are code points. -/
def patsFileOperation : List RE := [
  -- ls\s+[\-\w\s]*
  reSeq [reLits "ls", RE.plusA (RAtom.cls false [ClsItem.spaceC]), RE.starA true (RAtom.cls false [ClsItem.ch 45, ClsItem.wordC, ClsItem.spaceC])],
  -- cat\s+[\w\./\-]+
  reSeq [reLits "cat", RE.plusA (RAtom.cls false [ClsItem.spaceC]), RE.plusA (RAtom.cls false [ClsItem.wordC, ClsItem.ch 46, ClsItem.ch 47, ClsItem.ch 45])],
  -- grep\s+[\-\w\s"\APOS]+
  reSeq [reLits "grep", RE.plusA (RAtom.cls false [ClsItem.spaceC]), RE.plusA (RAtom.cls false [ClsItem.ch 45, ClsItem.wordC, ClsItem.spaceC, ClsItem.ch 34, ClsItem.ch 39])],
  -- find\s+[\w\./\-\s]+
  reSeq [reLits "find", RE.plusA (RAtom.cls false [ClsItem.spaceC]), RE.plusA (RAtom.cls false [ClsItem.wordC, ClsItem.ch 46, ClsItem.ch 47, ClsItem.ch 45, ClsItem.spaceC])],
  -- mkdir\s+[\-\w\s/\.]+
  reSeq [reLits "mkdir", RE.plusA (RAtom.cls false [ClsItem.spaceC]), RE.plusA (RAtom.cls false [ClsItem.ch 45, ClsItem.wordC, ClsItem.spaceC, ClsItem.ch 47, ClsItem.ch 46])],
  -- rm\s+[\-\w\s/\.]+
  reSeq [reLits "rm", RE.plusA (RAtom.cls false [ClsItem.spaceC]), RE.plusA (RAtom.cls false [ClsItem.ch 45, ClsItem.wordC, ClsItem.spaceC, ClsItem.ch 47, ClsItem.ch 46])],
  -- cp\s+[\-\w\s/\.]+
  reSeq [reLits "cp", RE.plusA (RAtom.cls false [ClsItem.spaceC]), RE.plusA (RAtom.cls false [ClsItem.ch 45, ClsItem.wordC, ClsItem.spaceC, ClsItem.ch 47, ClsItem.ch 46])],
  -- mv\s+[\-\w\s/\.]+
  reSeq [reLits "mv", RE.plusA (RAtom.cls false [ClsItem.spaceC]), RE.plusA (RAtom.cls false [ClsItem.ch 45, ClsItem.wordC, ClsItem.spaceC, ClsItem.ch 47, ClsItem.ch 46])],
  -- chmod\s+[\d\w\s/\.]+
  reSeq [reLits "chmod", RE.plusA (RAtom.cls false [ClsItem.spaceC]), RE.plusA (RAtom.cls false [ClsItem.digitC, ClsItem.wordC, ClsItem.spaceC, ClsItem.ch 47, ClsItem.ch 46])],
  -- chown\s+[\w:\s/\.]+
  reSeq [reLits "chown", RE.plusA (RAtom.cls false [ClsItem.spaceC]), RE.plusA (RAtom.cls false [ClsItem.wordC, ClsItem.ch 58, ClsItem.spaceC, ClsItem.ch 47, ClsItem.ch 46])],
  -- touch\s+[\w/\.]+
  reSeq [reLits "touch", RE.plusA (RAtom.cls false [ClsItem.spaceC]), RE.plusA (RAtom.cls false [ClsItem.wordC, ClsItem.ch 47, ClsItem.ch 46])],
  -- head\s+[\-\w\s/\.]+
  reSeq [reLits "head", RE.plusA (RAtom.cls false [ClsItem.spaceC]), RE.plusA (RAtom.cls false [ClsItem.ch 45, ClsItem.wordC, ClsItem.spaceC, ClsItem.ch 47, ClsItem.ch 46])],
  -- tail\s+[\-\w\s/\.]+
  reSeq [reLits "tail", RE.plusA (RAtom.cls false [ClsItem.spaceC]), RE.plusA (RAtom.cls false [ClsItem.ch 45, ClsItem.wordC, ClsItem.spaceC, ClsItem.ch 47, ClsItem.ch 46])],
  -- wc\s+[\-\w\s/\.]+
  reSeq [reLits "wc", RE.plusA (RAtom.cls false [ClsItem.spaceC]), RE.plusA (RAtom.cls false [ClsItem.ch 45, ClsItem.wordC, ClsItem.spaceC, ClsItem.ch 47, ClsItem.ch 46])],
  -- sort\s+[\-\w\s/\.]+
  reSeq [reLits "sort", RE.plusA (RAtom.cls false [ClsItem.spaceC]), RE.plusA (RAtom.cls false [ClsItem.ch 45, ClsItem.wordC, ClsItem.spaceC, ClsItem.ch 47, ClsItem.ch 46])],
  -- uniq\s+[\-\w\s/\.]+
  reSeq [reLits "uniq", RE.plusA (RAtom.cls false [ClsItem.spaceC]), RE.plusA (RAtom.cls false [ClsItem.ch 45, ClsItem.wordC, ClsItem.spaceC, ClsItem.ch 47, ClsItem.ch 46])]
]

/-- The GIT_OPERATION regex pattern list of ShellCommandFilter, in source order.
Character class literals are code points. -/
def patsGitOperation : List RE := [
  -- git\s+clone\s+[\w\-\.:/@]+
  reSeq [reLits "git", RE.plusA (RAtom.cls false [ClsItem.spaceC]), reLits "clone", RE.plusA (RAtom.cls false [ClsItem.spaceC]), RE.plusA (RAtom.cls false [ClsItem.wordC, ClsItem.ch 45, ClsItem.ch 46, ClsItem.ch 58, ClsItem.ch 47, ClsItem.ch 64])],
  -- git\s+add\s+[\w\./\-\s]+
  reSeq [reLits "git", RE.plusA (RAtom.cls false [ClsItem.spaceC]), reLits "add", RE.plusA (RAtom.cls false [ClsItem.spaceC]), RE.plusA (RAtom.cls false [ClsItem.wordC, ClsItem.ch 46, ClsItem.ch 47, ClsItem.ch 45, ClsItem.spaceC])],
  -- git\s+commit\s+[\-\w\s"\APOS]+
  reSeq [reLits "git", RE.plusA (RAtom.cls false [ClsItem.spaceC]), reLits "commit", RE.plusA (RAtom.cls false [ClsItem.spaceC]), RE.plusA (RAtom.cls false [ClsItem.ch 45, ClsItem.wordC, ClsItem.spaceC, ClsItem.ch 34, ClsItem.ch 39])],
  -- git\s+push\s+[\w\-\s]*
  reSeq [reLits "git", RE.plusA (RAtom.cls false [ClsItem.spaceC]), reLits "push", RE.plusA (RAtom.cls false [ClsItem.spaceC]), RE.starA true (RAtom.cls false [ClsItem.wordC, ClsItem.ch 45, ClsItem.spaceC])],
  -- git\s+pull\s+[\w\-\s]*
  reSeq [reLits "git", RE.plusA (RAtom.cls false [ClsItem.spaceC]), reLits "pull", RE.plusA (RAtom.cls false [ClsItem.spaceC]), RE.starA true (RAtom.cls false [ClsItem.wordC, ClsItem.ch 45, ClsItem.spaceC])],
  -- git\s+checkout\s+[\w\-\s/\.]+
  reSeq [reLits "git", RE.plusA (RAtom.cls false [ClsItem.spaceC]), reLits "checkout", RE.plusA (RAtom.cls false [ClsItem.spaceC]), RE.plusA (RAtom.cls false [ClsItem.wordC, ClsItem.ch 45, ClsItem.spaceC, ClsItem.ch 47, ClsItem.ch 46])],
  -- git\s+branch\s+[\w\-\s]*
  reSeq [reLits "git", RE.plusA (RAtom.cls false [ClsItem.spaceC]), reLits "branch", RE.plusA (RAtom.cls false [ClsItem.spaceC]), RE.starA true (RAtom.cls false [ClsItem.wordC, ClsItem.ch 45, ClsItem.spaceC])],
  -- git\s+merge\s+[\w\-\s/\.]+
  reSeq [reLits "git", RE.plusA (RAtom.cls false [ClsItem.spaceC]), reLits "merge", RE.plusA (RAtom.cls false [ClsItem.spaceC]), RE.plusA (RAtom.cls false [ClsItem.wordC, ClsItem.ch 45, ClsItem.spaceC, ClsItem.ch 47, ClsItem.ch 46])],
  -- git\s+status
  reSeq [reLits "git", RE.plusA (RAtom.cls false [ClsItem.spaceC]), reLits "status"],
  -- git\s+log\s+[\-\w\s]*
  reSeq [reLits "git", RE.plusA (RAtom.cls false [ClsItem.spaceC]), reLits "log", RE.plusA (RAtom.cls false [ClsItem.spaceC]), RE.starA true (RAtom.cls false [ClsItem.ch 45, ClsItem.wordC, ClsItem.spaceC])],
  -- git\s+diff\s+[\w\-\s/\.]*
  reSeq [reLits "git", RE.plusA (RAtom.cls false [ClsItem.spaceC]), reLits "diff", RE.plusA (RAtom.cls false [ClsItem.spaceC]), RE.starA true (RAtom.cls false [ClsItem.wordC, ClsItem.ch 45, ClsItem.spaceC, ClsItem.ch 47, ClsItem.ch 46])],
  -- git\s+reset\s+[\-\w\s/\.]+
  reSeq [reLits "git", RE.plusA (RAtom.cls false [ClsItem.spaceC]), reLits "reset", RE.plusA (RAtom.cls false [ClsItem.spaceC]), RE.plusA (RAtom.cls false [ClsItem.ch 45, ClsItem.wordC, ClsItem.spaceC, ClsItem.ch 47, ClsItem.ch 46])],
  -- git\s+rebase\s+[\w\-\s/\.]+
  reSeq [reLits "git", RE.plusA (RAtom.cls false [ClsItem.spaceC]), reLits "rebase", RE.plusA (RAtom.cls false [ClsItem.spaceC]), RE.plusA (RAtom.cls false [ClsItem.wordC, ClsItem.ch 45, ClsItem.spaceC, ClsItem.ch 47, ClsItem.ch 46])]
]

/-- The SYSTEM_COMMAND regex pattern list of ShellCommandFilter, in source order.
Character class literals are code points. -/
def patsSystemCommand : List RE := [
  -- sudo\s+[\w\-\s/\.]+
  reSeq [reLits "sudo", RE.plusA (RAtom.cls false [ClsItem.spaceC]), RE.plusA (RAtom.cls false [ClsItem.wordC, ClsItem.ch 45, ClsItem.spaceC, ClsItem.ch 47, ClsItem.ch 46])],
  -- ps\s+[\-\w\s]*
  reSeq [reLits "ps", RE.plusA (RAtom.cls false [ClsItem.spaceC]), RE.starA true (RAtom.cls false [ClsItem.ch 45, ClsItem.wordC, ClsItem.spaceC])],
  -- kill\s+[\-\d\w\s]+
  reSeq [reLits "kill", RE.plusA (RAtom.cls false [ClsItem.spaceC]), RE.plusA (RAtom.cls false [ClsItem.ch 45, ClsItem.digitC, ClsItem.wordC, ClsItem.spaceC])],
  -- killall\s+[\w\-]+
  reSeq [reLits "killall", RE.plusA (RAtom.cls false [ClsItem.spaceC]), RE.plusA (RAtom.cls false [ClsItem.wordC, ClsItem.ch 45])],
  -- top\s*
  reSeq [reLits "top", RE.starA true (RAtom.cls false [ClsItem.spaceC])],
  -- htop\s*
  reSeq [reLits "htop", RE.starA true (RAtom.cls false [ClsItem.spaceC])],
  -- df\s+[\-\w\s]*
  reSeq [reLits "df", RE.plusA (RAtom.cls false [ClsItem.spaceC]), RE.starA true (RAtom.cls false [ClsItem.ch 45, ClsItem.wordC, ClsItem.spaceC])],
  -- du\s+[\-\w\s/\.]*
  reSeq [reLits "du", RE.plusA (RAtom.cls false [ClsItem.spaceC]), RE.starA true (RAtom.cls false [ClsItem.ch 45, ClsItem.wordC, ClsItem.spaceC, ClsItem.ch 47, ClsItem.ch 46])],
  -- free\s+[\-\w\s]*
  reSeq [reLits "free", RE.plusA (RAtom.cls false [ClsItem.spaceC]), RE.starA true (RAtom.cls false [ClsItem.ch 45, ClsItem.wordC, ClsItem.spaceC])],
  -- uname\s+[\-\w\s]*
  reSeq [reLits "uname", RE.plusA (RAtom.cls false [ClsItem.spaceC]), RE.starA true (RAtom.cls false [ClsItem.ch 45, ClsItem.wordC, ClsItem.spaceC])],
  -- whoami\s*
  reSeq [reLits "whoami", RE.starA true (RAtom.cls false [ClsItem.spaceC])],
  -- id\s*
  reSeq [reLits "id", RE.starA true (RAtom.cls false [ClsItem.spaceC])],
  -- which\s+[\w\-]+
  reSeq [reLits "which", RE.plusA (RAtom.cls false [ClsItem.spaceC]), RE.plusA (RAtom.cls false [ClsItem.wordC, ClsItem.ch 45])],
  -- whereis\s+[\w\-]+
  reSeq [reLits "whereis", RE.plusA (RAtom.cls false [ClsItem.spaceC]), RE.plusA (RAtom.cls false [ClsItem.wordC, ClsItem.ch 45])],
  -- locate\s+[\w\-/\.]+
  reSeq [reLits "locate", RE.plusA (RAtom.cls false [ClsItem.spaceC]), RE.plusA (RAtom.cls false [ClsItem.wordC, ClsItem.ch 45, ClsItem.ch 47, ClsItem.ch 46])],
  -- systemctl\s+[\w\-\s]+
  reSeq [reLits "systemctl", RE.plusA (RAtom.cls false [ClsItem.spaceC]), RE.plusA (RAtom.cls false [ClsItem.wordC, ClsItem.ch 45, ClsItem.spaceC])],
  -- service\s+[\w\-\s]+
  reSeq [reLits "service", RE.plusA (RAtom.cls false [ClsItem.spaceC]), RE.plusA (RAtom.cls false [ClsItem.wordC, ClsItem.ch 45, ClsItem.spaceC])]
]

/-- The BUILD_COMMAND regex pattern list of ShellCommandFilter, in source order.
Character class literals are code points. -/
def patsBuildCommand : List RE := [
  -- make\s+[\w\-\s]*
  reSeq [reLits "make", RE.plusA (RAtom.cls false [ClsItem.spaceC]), RE.starA true (RAtom.cls false [ClsItem.wordC, ClsItem.ch 45, ClsItem.spaceC])],
  -- cmake\s+[\w\-\s/\.]+
  reSeq [reLits "cmake", RE.plusA (RAtom.cls false [ClsItem.spaceC]), RE.plusA (RAtom.cls false [ClsItem.wordC, ClsItem.ch 45, ClsItem.spaceC, ClsItem.ch 47, ClsItem.ch 46])],
  -- gcc\s+[\w\-\s/\.]+
  reSeq [reLits "gcc", RE.plusA (RAtom.cls false [ClsItem.spaceC]), RE.plusA (RAtom.cls false [ClsItem.wordC, ClsItem.ch 45, ClsItem.spaceC, ClsItem.ch 47, ClsItem.ch 46])],
  -- g\+\+\s+[\w\-\s/\.]+
  reSeq [reLits "g++", RE.plusA (RAtom.cls false [ClsItem.spaceC]), RE.plusA (RAtom.cls false [ClsItem.wordC, ClsItem.ch 45, ClsItem.spaceC, ClsItem.ch 47, ClsItem.ch 46])],
  -- javac\s+[\w\-\s/\.]+
  reSeq [reLits "javac", RE.plusA (RAtom.cls false [ClsItem.spaceC]), RE.plusA (RAtom.cls false [ClsItem.wordC, ClsItem.ch 45, ClsItem.spaceC, ClsItem.ch 47, ClsItem.ch 46])],
  -- java\s+[\w\-\s/\.]+
  reSeq [reLits "java", RE.plusA (RAtom.cls false [ClsItem.spaceC]), RE.plusA (RAtom.cls false [ClsItem.wordC, ClsItem.ch 45, ClsItem.spaceC, ClsItem.ch 47, ClsItem.ch 46])],
  -- python\s+[\w\-\s/\.]+
  reSeq [reLits "python", RE.plusA (RAtom.cls false [ClsItem.spaceC]), RE.plusA (RAtom.cls false [ClsItem.wordC, ClsItem.ch 45, ClsItem.spaceC, ClsItem.ch 47, ClsItem.ch 46])],
  -- node\s+[\w\-\s/\.]+
  reSeq [reLits "node", RE.plusA (RAtom.cls false [ClsItem.spaceC]), RE.plusA (RAtom.cls false [ClsItem.wordC, ClsItem.ch 45, ClsItem.spaceC, ClsItem.ch 47, ClsItem.ch 46])],
  -- go\s+build\s+[\w\-\s/\.]*
  reSeq [reLits "go", RE.plusA (RAtom.cls false [ClsItem.spaceC]), reLits "build", RE.plusA (RAtom.cls false [ClsItem.spaceC]), RE.starA true (RAtom.cls false [ClsItem.wordC, ClsItem.ch 45, ClsItem.spaceC, ClsItem.ch 47, ClsItem.ch 46])],
  -- cargo\s+build\s+[\w\-\s]*
  reSeq [reLits "cargo", RE.plusA (RAtom.cls false [ClsItem.spaceC]), reLits "build", RE.plusA (RAtom.cls false [ClsItem.spaceC]), RE.starA true (RAtom.cls false [ClsItem.wordC, ClsItem.ch 45, ClsItem.spaceC])],
  -- mvn\s+[\w\-\s]+
  reSeq [reLits "mvn", RE.plusA (RAtom.cls false [ClsItem.spaceC]), RE.plusA (RAtom.cls false [ClsItem.wordC, ClsItem.ch 45, ClsItem.spaceC])],
  -- gradle\s+[\w\-\s]+
  reSeq [reLits "gradle", RE.plusA (RAtom.cls false [ClsItem.spaceC]), RE.plusA (RAtom.cls false [ClsItem.wordC, ClsItem.ch 45, ClsItem.spaceC])],
  -- ant\s+[\w\-\s]*
  reSeq [reLits "ant", RE.plusA (RAtom.cls false [ClsItem.spaceC]), RE.starA true (RAtom.cls false [ClsItem.wordC, ClsItem.ch 45, ClsItem.spaceC])]
]

/-- The TEST_COMMAND regex pattern list of ShellCommandFilter, in source order.
Character class literals are code points. -/
def patsTestCommand : List RE := [
  -- pytest\s+[\w\-\s/\.]*
  reSeq [reLits "pytest", RE.plusA (RAtom.cls false [ClsItem.spaceC]), RE.starA true (RAtom.cls false [ClsItem.wordC, ClsItem.ch 45, ClsItem.spaceC, ClsItem.ch 47, ClsItem.ch 46])],
  -- python\s+\-m\s+pytest\s+[\w\-\s/\.]*
  reSeq [reLits "python", RE.plusA (RAtom.cls false [ClsItem.spaceC]), reLits "-m", RE.plusA (RAtom.cls false [ClsItem.spaceC]), reLits "pytest", RE.plusA (RAtom.cls false [ClsItem.spaceC]), RE.starA true (RAtom.cls false [ClsItem.wordC, ClsItem.ch 45, ClsItem.spaceC, ClsItem.ch 47, ClsItem.ch 46])],
  -- npm\s+test\s*
  reSeq [reLits "npm", RE.plusA (RAtom.cls false [ClsItem.spaceC]), reLits "test", RE.starA true (RAtom.cls false [ClsItem.spaceC])],
  -- yarn\s+test\s*
  reSeq [reLits "yarn", RE.plusA (RAtom.cls false [ClsItem.spaceC]), reLits "test", RE.starA true (RAtom.cls false [ClsItem.spaceC])],
  -- jest\s+[\w\-\s/\.]*
  reSeq [reLits "jest", RE.plusA (RAtom.cls false [ClsItem.spaceC]), RE.starA true (RAtom.cls false [ClsItem.wordC, ClsItem.ch 45, ClsItem.spaceC, ClsItem.ch 47, ClsItem.ch 46])],
  -- mocha\s+[\w\-\s/\.]*
  reSeq [reLits "mocha", RE.plusA (RAtom.cls false [ClsItem.spaceC]), RE.starA true (RAtom.cls false [ClsItem.wordC, ClsItem.ch 45, ClsItem.spaceC, ClsItem.ch 47, ClsItem.ch 46])],
  -- phpunit\s+[\w\-\s/\.]*
  reSeq [reLits "phpunit", RE.plusA (RAtom.cls false [ClsItem.spaceC]), RE.starA true (RAtom.cls false [ClsItem.wordC, ClsItem.ch 45, ClsItem.spaceC, ClsItem.ch 47, ClsItem.ch 46])],
  -- rspec\s+[\w\-\s/\.]*
  reSeq [reLits "rspec", RE.plusA (RAtom.cls false [ClsItem.spaceC]), RE.starA true (RAtom.cls false [ClsItem.wordC, ClsItem.ch 45, ClsItem.spaceC, ClsItem.ch 47, ClsItem.ch 46])],
  -- go\s+test\s+[\w\-\s/\.]*
  reSeq [reLits "go", RE.plusA (RAtom.cls false [ClsItem.spaceC]), reLits "test", RE.plusA (RAtom.cls false [ClsItem.spaceC]), RE.starA true (RAtom.cls false [ClsItem.wordC, ClsItem.ch 45, ClsItem.spaceC, ClsItem.ch 47, ClsItem.ch 46])],
  -- cargo\s+test\s+[\w\-\s]*
  reSeq [reLits "cargo", RE.plusA (RAtom.cls false [ClsItem.spaceC]), reLits "test", RE.plusA (RAtom.cls false [ClsItem.spaceC]), RE.starA true (RAtom.cls false [ClsItem.wordC, ClsItem.ch 45, ClsItem.spaceC])],
  -- mvn\s+test\s*
  reSeq [reLits "mvn", RE.plusA (RAtom.cls false [ClsItem.spaceC]), reLits "test", RE.starA true (RAtom.cls false [ClsItem.spaceC])],
  -- gradle\s+test\s*
  reSeq [reLits "gradle", RE.plusA (RAtom.cls false [ClsItem.spaceC]), reLits "test", RE.starA true (RAtom.cls false [ClsItem.spaceC])]
]

/-- The DEPLOYMENT regex pattern list of ShellCommandFilter, in source order.
Character class literals are code points. -/
def patsDeployment : List RE := [
  -- docker\s+[\w\-\s/\.]+
  reSeq [reLits "docker", RE.plusA (RAtom.cls false [ClsItem.spaceC]), RE.plusA (RAtom.cls false [ClsItem.wordC, ClsItem.ch 45, ClsItem.spaceC, ClsItem.ch 47, ClsItem.ch 46])],
  -- docker\-compose\s+[\w\-\s/\.]+
  reSeq [reLits "docker-compose", RE.plusA (RAtom.cls false [ClsItem.spaceC]), RE.plusA (RAtom.cls false [ClsItem.wordC, ClsItem.ch 45, ClsItem.spaceC, ClsItem.ch 47, ClsItem.ch 46])],
  -- kubectl\s+[\w\-\s/\.]+
  reSeq [reLits "kubectl", RE.plusA (RAtom.cls false [ClsItem.spaceC]), RE.plusA (RAtom.cls false [ClsItem.wordC, ClsItem.ch 45, ClsItem.spaceC, ClsItem.ch 47, ClsItem.ch 46])],
  -- helm\s+[\w\-\s/\.]+
  reSeq [reLits "helm", RE.plusA (RAtom.cls false [ClsItem.spaceC]), RE.plusA (RAtom.cls false [ClsItem.wordC, ClsItem.ch 45, ClsItem.spaceC, ClsItem.ch 47, ClsItem.ch 46])],
  -- terraform\s+[\w\-\s/\.]+
  reSeq [reLits "terraform", RE.plusA (RAtom.cls false [ClsItem.spaceC]), RE.plusA (RAtom.cls false [ClsItem.wordC, ClsItem.ch 45, ClsItem.spaceC, ClsItem.ch 47, ClsItem.ch 46])],
  -- ansible\s+[\w\-\s/\.]+
  reSeq [reLits "ansible", RE.plusA (RAtom.cls false [ClsItem.spaceC]), RE.plusA (RAtom.cls false [ClsItem.wordC, ClsItem.ch 45, ClsItem.spaceC, ClsItem.ch 47, ClsItem.ch 46])],
  -- ssh\s+[\w\-@\.:]+
  reSeq [reLits "ssh", RE.plusA (RAtom.cls false [ClsItem.spaceC]), RE.plusA (RAtom.cls false [ClsItem.wordC, ClsItem.ch 45, ClsItem.ch 64, ClsItem.ch 46, ClsItem.ch 58])],
  -- scp\s+[\w\-@\.:\/\s]+
  reSeq [reLits "scp", RE.plusA (RAtom.cls false [ClsItem.spaceC]), RE.plusA (RAtom.cls false [ClsItem.wordC, ClsItem.ch 45, ClsItem.ch 64, ClsItem.ch 46, ClsItem.ch 58, ClsItem.ch 47, ClsItem.spaceC])],
  -- rsync\s+[\w\-@\.:\/\s]+
  reSeq [reLits "rsync", RE.plusA (RAtom.cls false [ClsItem.spaceC]), RE.plusA (RAtom.cls false [ClsItem.wordC, ClsItem.ch 45, ClsItem.ch 64, ClsItem.ch 46, ClsItem.ch 58, ClsItem.ch 47, ClsItem.spaceC])]
]

/-- The NETWORK_COMMAND regex pattern list of ShellCommandFilter, in source order.
Character class literals are code points. -/
def patsNetworkCommand : List RE := [
  -- curl\s+[\w\-\s/\.:@]+
  reSeq [reLits "curl", RE.plusA (RAtom.cls false [ClsItem.spaceC]), RE.plusA (RAtom.cls false [ClsItem.wordC, ClsItem.ch 45, ClsItem.spaceC, ClsItem.ch 47, ClsItem.ch 46, ClsItem.ch 58, ClsItem.ch 64])],
  -- wget\s+[\w\-\s/\.:@]+
  reSeq [reLits "wget", RE.plusA (RAtom.cls false [ClsItem.spaceC]), RE.plusA (RAtom.cls false [ClsItem.wordC, ClsItem.ch 45, ClsItem.spaceC, ClsItem.ch 47, ClsItem.ch 46, ClsItem.ch 58, ClsItem.ch 64])],
  -- ping\s+[\w\-\.]+
  reSeq [reLits "ping", RE.plusA (RAtom.cls false [ClsItem.spaceC]), RE.plusA (RAtom.cls false [ClsItem.wordC, ClsItem.ch 45, ClsItem.ch 46])],
  -- netstat\s+[\-\w\s]*
  reSeq [reLits "netstat", RE.plusA (RAtom.cls false [ClsItem.spaceC]), RE.starA true (RAtom.cls false [ClsItem.ch 45, ClsItem.wordC, ClsItem.spaceC])],
  -- ss\s+[\-\w\s]*
  reSeq [reLits "ss", RE.plusA (RAtom.cls false [ClsItem.spaceC]), RE.starA true (RAtom.cls false [ClsItem.ch 45, ClsItem.wordC, ClsItem.spaceC])],
  -- nslookup\s+[\w\-\.]+
  reSeq [reLits "nslookup", RE.plusA (RAtom.cls false [ClsItem.spaceC]), RE.plusA (RAtom.cls false [ClsItem.wordC, ClsItem.ch 45, ClsItem.ch 46])],
  -- dig\s+[\w\-\.\s]+
  reSeq [reLits "dig", RE.plusA (RAtom.cls false [ClsItem.spaceC]), RE.plusA (RAtom.cls false [ClsItem.wordC, ClsItem.ch 45, ClsItem.ch 46, ClsItem.spaceC])],
  -- telnet\s+[\w\-\.\s]+
  reSeq [reLits "telnet", RE.plusA (RAtom.cls false [ClsItem.spaceC]), RE.plusA (RAtom.cls false [ClsItem.wordC, ClsItem.ch 45, ClsItem.ch 46, ClsItem.spaceC])]
]

/-- The PACKAGE_INSTALL alternative suggestion text (exact code points of the source literal). -/
def altPackageInstall : String :=
  "\u00F0\u0178\u201C\u00A6 **Package Installation Required**\n\nThis operation requires manual package installation outside this application:\n\u00E2\u20AC\u00A2 Install packages using your system\x27s package manager\n\u00E2\u20AC\u00A2 Use pip, npm, or other package managers in your terminal\n\u00E2\u20AC\u00A2 Contact your system administrator for package installation\n\u00E2\u20AC\u00A2 Refer to the project\x27s installation documentation\n\n**Security Note**: Automatic package installation has been disabled for security reasons."

/-- The FILE_OPERATION alternative suggestion text (exact code points of the source literal). -/
def altFileOperation : String :=
  "\u00F0\u0178\u201C **File Operations Available Through Interface**\n\nFile operations can be performed through the web interface:\n\u00E2\u20AC\u00A2 Use the file browser to navigate and view files\n\u00E2\u20AC\u00A2 Upload files directly through the interface\n\u00E2\u20AC\u00A2 Use the secure file operations API for programmatic access\n\u00E2\u20AC\u00A2 View file contents through the built-in file viewer\n\n**Security Note**: Shell-based file operations have been disabled for security."

/-- The GIT_OPERATION alternative suggestion text (exact code points of the source literal). -/
def altGitOperation : String :=
  "\u00F0\u0178\u201D\u00A7 **Git Operations Must Be Done Manually**\n\nGit operations should be performed outside this application:\n\u00E2\u20AC\u00A2 Use git commands in your local terminal\n\u00E2\u20AC\u00A2 Use your preferred Git GUI client\n\u00E2\u20AC\u00A2 Use your IDE\x27s built-in Git integration\n\u00E2\u20AC\u00A2 Use web-based Git interfaces (GitHub, GitLab, etc.)\n\n**Security Note**: Git operations through shell commands have been disabled."

/-- The SYSTEM_COMMAND alternative suggestion text (exact code points of the source literal). -/
def altSystemCommand : String :=
  "\u00E2\u0161\u2122\u00EF\u00B8 **System Commands Not Available**\n\nSystem commands cannot be executed through this interface:\n\u00E2\u20AC\u00A2 Use your system\x27s terminal for system operations\n\u00E2\u20AC\u00A2 Access system information through dedicated tools\n\u00E2\u20AC\u00A2 Use system monitoring applications\n\u00E2\u20AC\u00A2 Contact your system administrator for system-level tasks\n\n**Security Note**: System commands have been disabled for security reasons."

/-- The BUILD_COMMAND alternative suggestion text (exact code points of the source literal). -/
def altBuildCommand : String :=
  "\u00F0\u0178\u201D\u00A8 **Build Commands Must Be Run Manually**\n\nBuild operations should be performed outside this application:\n\u00E2\u20AC\u00A2 Run build commands in your local development environment\n\u00E2\u20AC\u00A2 Use your IDE\x27s build integration\n\u00E2\u20AC\u00A2 Set up automated build pipelines (CI/CD)\n\u00E2\u20AC\u00A2 Use project-specific build tools directly\n\n**Security Note**: Build commands have been disabled for security."

/-- The TEST_COMMAND alternative suggestion text (exact code points of the source literal). -/
def altTestCommand : String :=
  "\u00F0\u0178\u00A7\u00AA **Test Commands Must Be Run Manually**\n\nTest execution should be performed outside this application:\n\u00E2\u20AC\u00A2 Run tests in your local development environment\n\u00E2\u20AC\u00A2 Use your IDE\x27s test runner integration\n\u00E2\u20AC\u00A2 Set up automated testing in CI/CD pipelines\n\u00E2\u20AC\u00A2 Use dedicated testing tools and frameworks\n\n**Security Note**: Test commands have been disabled for security."

/-- The DEPLOYMENT alternative suggestion text (exact code points of the source literal). -/
def altDeployment : String :=
  "\u00F0\u0178\u0161\u20AC **Deployment Commands Not Available**\n\nDeployment operations should be performed through proper channels:\n\u00E2\u20AC\u00A2 Use dedicated deployment tools and platforms\n\u00E2\u20AC\u00A2 Set up automated deployment pipelines\n\u00E2\u20AC\u00A2 Use container orchestration platforms directly\n\u00E2\u20AC\u00A2 Follow your organization\x27s deployment procedures\n\n**Security Note**: Deployment commands have been disabled for security."

/-- The NETWORK_COMMAND alternative suggestion text (exact code points of the source literal). -/
def altNetworkCommand : String :=
  "\u00F0\u0178\u0152 **Network Commands Not Available**\n\nNetwork operations should be performed outside this application:\n\u00E2\u20AC\u00A2 Use network tools in your local terminal\n\u00E2\u20AC\u00A2 Use web-based network testing tools\n\u00E2\u20AC\u00A2 Use dedicated network monitoring applications\n\u00E2\u20AC\u00A2 Contact your network administrator for network tasks\n\n**Security Note**: Network commands have been disabled for security."

/-- Security message substituted for a fenced code block that contains shell commands. -/
def codeBlockSecurityMessage : String :=
  "\u0060\u0060\u0060text\n\u00F0\u0178\u201D\u2019 SECURITY: Shell command code block removed for security reasons.\nPlease perform these operations manually outside this application.\n\u0060\u0060\u0060"

/-- Security message substituted for an inline code span with suspicious keywords. -/
def inlineSecurityMessage : String :=
  "\u0060[Shell command removed for security]\u0060"

/-- Regex for fenced code blocks from filterCodeBlocks. -/
def codeBlockPattern : RE :=
  reSeq [reLits "\u0060\u0060\u0060", RE.optR (reAlts [reLits "bash", reLits "shell", reLits "sh", reLits "zsh", reLits "fish"]), reLits "\n", RE.starA false (RAtom.anyC), reLits "\n\u0060\u0060\u0060"]

/-- Regex for inline code spans from filterCodeBlocks. -/
def inlineCodePattern : RE :=
  reSeq [reLits "\u0060", reSeq [RE.starA true (RAtom.cls true [ClsItem.ch 96]), reAlts [reLits "pip", reLits "npm", reLits "git", reLits "sudo", reLits "docker", reLits "kubectl"], RE.starA true (RAtom.cls true [ClsItem.ch 96])], reLits "\u0060"]

end Gitmesh

namespace Gitmesh

/-! ## Response filter: the three passes

Embedding of `ShellCommandFilter.filter_response` and
`ShellCommandFilter._filter_code_blocks`.  Pass one walks the pattern
table in insertion order, collecting the matches of each pattern against
the current content once and replacing them in reverse positional order
(exactly the source loop; the match records keep the text and offsets of
the scan-time content, as Python match objects do).  Pass two collects
fenced-code-block matches against the pass-one output and, for each block
whose body matches any shell pattern, replaces every occurrence of the
matched text (`str.replace` semantics) with the block security message.
Pass three does the same for inline code spans with suspicious
keywords. -/

/-- The `ShellCommandMatch` dataclass. -/
structure ShellCommandMatch where
  original_text : String
  command_type : ShellCommandType
  start_pos : Nat
  end_pos : Nat
  suggested_alternative : String
deriving Repr, DecidableEq

/-- The `FilterResult` dataclass. -/
structure FilterResult where
  filtered_content : String
  commands_filtered : List ShellCommandMatch
  alternatives_suggested : Nat
  security_notes_added : Nat
deriving Repr, DecidableEq

/-- The `shell_patterns` table with its alternative texts, in insertion
order: `(type, patterns, alternative)`. -/
def shellPatternTable : List (ShellCommandType × List RE × String) :=
  [(ShellCommandType.PACKAGE_INSTALL, patsPackageInstall, altPackageInstall),
   (ShellCommandType.FILE_OPERATION, patsFileOperation, altFileOperation),
   (ShellCommandType.GIT_OPERATION, patsGitOperation, altGitOperation),
   (ShellCommandType.SYSTEM_COMMAND, patsSystemCommand, altSystemCommand),
   (ShellCommandType.BUILD_COMMAND, patsBuildCommand, altBuildCommand),
   (ShellCommandType.TEST_COMMAND, patsTestCommand, altTestCommand),
   (ShellCommandType.DEPLOYMENT, patsDeployment, altDeployment),
   (ShellCommandType.NETWORK_COMMAND, patsNetworkCommand, altNetworkCommand)]

/-- Accumulator of pass one (`filtered_content`, `commands_filtered`,
`alternatives_suggested`, `security_notes_added`). -/
structure Pass1State where
  content : List Nat
  commands_filtered : List ShellCommandMatch
  alternatives_suggested : Nat
  security_notes_added : Nat

/-- One pattern of pass one: scan once, then substitute every match in
reverse positional order, appending a match record and bumping both
counters per substitution. -/
def applyPattern (ctype : ShellCommandType) (altText : String)
    (st : Pass1State) (r : RE) : Pass1State :=
  let ms := findIter r st.content
  let orig := st.content
  ms.reverse.foldl (fun st m =>
    { content := takeCodes st.content m.1 ++ strToCodes altText ++
                 dropCodes st.content (m.1 + m.2)
      commands_filtered := st.commands_filtered ++
        [{ original_text := codesToStr (takeCodes (dropCodes orig m.1) m.2)
           command_type := ctype
           start_pos := m.1
           end_pos := m.1 + m.2
           suggested_alternative := altText }]
      alternatives_suggested := st.alternatives_suggested + 1
      security_notes_added := st.security_notes_added + 1 }) st

/-- Pass one over the whole pattern table. -/
def runPass1 (content : List Nat) : Pass1State :=
  shellPatternTable.foldl
    (fun st entry => entry.2.1.foldl (applyPattern entry.1 entry.2.2) st)
    { content := content
      commands_filtered := []
      alternatives_suggested := 0
      security_notes_added := 0 }

/-- Python `s.replace(needle, repl)`: replace every non-overlapping
occurrence, left to right.  The fuel `tlen s 0` bounds the number of
steps for the nonempty needles this code replaces, so it is never
exhausted. -/
def replaceAllAux (needle repl : List Nat) : List Nat → Nat → List Nat
  | [], _ => []
  | _ :: t, skip + 1 => replaceAllAux needle repl t skip
  | s@(c :: t), 0 =>
    if needle.isPrefixOf s then
      repl ++ replaceAllAux needle repl t (tlen needle 0 - 1)
    else c :: replaceAllAux needle repl t 0

def replaceAllList (s needle repl : List Nat) : List Nat :=
  if needle.isEmpty then s
  else replaceAllAux needle repl s 0

/-- Recovers group 1 of the fenced-code-block pattern from group 0:
group 0 has the shape
`"\x60\x60\x60" ++ tag ++ "\n" ++ inner ++ "\n\x60\x60\x60"`
with a newline-free tag and a lazily minimal inner part, so the inner
part extends from just after the first newline to just before the
trailing four characters. -/
def codeBlockInner (g0 : List Nat) : List Nat :=
  let mid := dropCodes ((dropCodes g0 3).dropWhile (fun c => !(c == 10))) 1
  takeCodes mid (tlen mid 0 - 4)

/-- The double loop with early break that asks whether a code-block body
matches any shell pattern (`re.search` per pattern). -/
def containsShellCommands (inner : List Nat) : Bool :=
  shellPatternTable.any (fun e => e.2.1.any (fun r => reSearch r inner))

/-- `ShellCommandFilter._filter_code_blocks`: fenced shell code blocks
whose body matches a shell pattern are replaced wholesale by the block
security message, then inline code spans with suspicious keywords by the
inline message.  Both loops iterate over the matches found in the content
as it was when the loop started while replacing inside the evolving
content, exactly as the Python iterator protocol does. -/
def filterCodeBlocks (content : List Nat) :
    List Nat × List ShellCommandMatch :=
  let ms := findIter codeBlockPattern content
  let afterBlocks := ms.foldl
    (fun (st : List Nat × List ShellCommandMatch) m =>
      let g0 := takeCodes (dropCodes content m.1) m.2
      if containsShellCommands (codeBlockInner g0) then
        (replaceAllList st.1 g0 (strToCodes codeBlockSecurityMessage),
         st.2 ++ [{ original_text := codesToStr g0
                    command_type := ShellCommandType.SYSTEM_COMMAND
                    start_pos := m.1
                    end_pos := m.1 + m.2
                    suggested_alternative := codeBlockSecurityMessage }])
      else st)
    (content, [])
  let content2 := afterBlocks.1
  let ms2 := findIter inlineCodePattern content2
  ms2.foldl
    (fun (st : List Nat × List ShellCommandMatch) m =>
      let g0 := takeCodes (dropCodes content2 m.1) m.2
      (replaceAllList st.1 g0 (strToCodes inlineSecurityMessage),
       st.2 ++ [{ original_text := codesToStr g0
                  command_type := ShellCommandType.SYSTEM_COMMAND
                  start_pos := m.1
                  end_pos := m.1 + m.2
                  suggested_alternative := inlineSecurityMessage }]))
    (content2, afterBlocks.2)

/-- `ShellCommandFilter.filter_response`. -/
def filterResponse (content : String) : FilterResult :=
  let p1 := runPass1 (strToCodes content)
  let after := filterCodeBlocks p1.content
  { filtered_content := codesToStr after.1
    commands_filtered := p1.commands_filtered ++ after.2
    alternatives_suggested := p1.alternatives_suggested
    security_notes_added := p1.security_notes_added }

/-- A fenced bash code block holding a pip command, used as a concrete
filter input. -/
def c4input : String :=
  "\x60\x60\x60bash\npip install x\n\x60\x60\x60"

/-- The pass-one output on `c4input`: the shell patterns rewrite the
text inside the fence, and the substituted explanatory texts trigger
further overlapping substitutions. -/
def c4pass1 : String :=
  "\x60\x60\x60bash\n\u00F0\u0178\u201C\u00A6 **Package Installation Required**\n\nThis operation requires manual package installation outs\u00E2\u0161\u2122\u00EF\u00B8 **System Commands Not Available**\n\nSystem commands cannot be executed through this interface:\n\u00E2\u20AC\u00A2 Use your system\x27s terminal for system operations\n\u00E2\u20AC\u00A2 Acce\u00F0\u0178\u0152 **Network Commands Not Available**\n\nNetwork operations should be performed outside this application:\n\u00E2\u20AC\u00A2 Use network tools in your local terminal\n\u00E2\u20AC\u00A2 Use web-based network testing tools\n\u00E2\u20AC\u00A2 Use dedicated network monitoring applications\n\u00E2\u20AC\u00A2 Contact your network administrator for network tasks\n\n**Security Note**: Network commands have been disabled for security.\u20AC\u00A2 Use system monitoring applications\n\u00E2\u20AC\u00A2 Contact your system administrator for system-level tasks\n\n**Security Note**: System commands have been disabled for security reasons.e this application:\n\u00E2\u20AC\u00A2 Install packages using your system\x27s package manager\n\u00E2\u20AC\u00A2 Use pip, npm, or other package managers in your terminal\n\u00E2\u20AC\u00A2 Contact your system administrator for package installation\n\u00E2\u20AC\u00A2 Refer to the project\x27s installation documentation\n\n**Security Note**: Automatic package installation has been disabled for security reasons.\n\x60\x60\x60"

/-- The full filter output on `c4input`: the code-block pass replaces
the whole fence (whose body still matches shell patterns) with the block
security message. -/
def c4once : String :=
  "\x60\x60\x60text\n\u00F0\u0178\u201D\u2019 SECURITY: Shell command code block removed for security reasons.\nPlease perform these operations manually outside this application.\n\x60\x60\x60"

end Gitmesh

namespace Gitmesh

/-! ## Supporting lemmas -/

theorem dropWhile_head_ne (p : Char → Bool) (l : List Char)
    (h : ∀ c, l.head? = some c → p c = false) : l.dropWhile p = l := by
  cases l with
  | nil => rfl
  | cons c t =>
    have hc : p c = false := h c rfl
    simp [List.dropWhile_cons, hc]

/-- Dropping a predicate from both ends of a list whose first and last
elements do not satisfy it is the identity. -/
theorem stripEnds_eq (p : Char → Bool) (l : List Char)
    (hh : ∀ c, l.head? = some c → p c = false)
    (hl : ∀ c, l.getLast? = some c → p c = false) :
    ((l.dropWhile p).reverse.dropWhile p).reverse = l := by
  rw [dropWhile_head_ne p l hh]
  rw [dropWhile_head_ne p l.reverse (by
    intro c hc
    rw [List.head?_reverse] at hc
    exact hl c hc)]
  exact List.reverse_reverse l

theorem pySplitAux_nil (acc : List Char) :
    pySplitAux [] acc = if acc.isEmpty then [] else [acc.reverse] := rfl

/-- A run of non-whitespace characters extends the token in progress. -/
theorem pySplitAux_token (l : List Char) (h : ∀ c ∈ l, pyIsWs c = false) :
    ∀ acc : List Char, l ≠ [] →
      pySplitAux l acc = [acc.reverse ++ l] := by
  induction l with
  | nil => intro acc hne; exact absurd rfl hne
  | cons c t ih =>
    intro acc _
    have hc : pyIsWs c = false := h c (List.mem_cons_self c t)
    have ht : ∀ d ∈ t, pyIsWs d = false := fun d hd => h d (List.mem_cons_of_mem c hd)
    cases t with
    | nil => simp [pySplitAux, hc]
    | cons d u =>
      have := ih ht (c :: acc) (by simp)
      simp only [pySplitAux, hc, Bool.false_eq_true, if_false] at this ⊢
      rw [this]
      simp

/-- A non-empty token followed by a space starts a new output token. -/
theorem pySplitAux_token_space (t rest : List Char)
    (h : ∀ c ∈ t, pyIsWs c = false) :
    ∀ acc : List Char, (t ≠ [] ∨ acc ≠ []) →
      pySplitAux (t ++ ' ' :: rest) acc =
        (acc.reverse ++ t) :: pySplitAux rest [] := by
  induction t with
  | nil =>
    intro acc hne
    have hacc : acc ≠ [] := by
      cases hne with
      | inl hcon => exact absurd rfl hcon
      | inr h2 => exact h2
    have : acc.isEmpty = false := by
      cases acc with
      | nil => exact absurd rfl hacc
      | cons a b => rfl
    simp [pySplitAux, pyIsWs, this]
  | cons c t' ih =>
    intro acc _
    have hc : pyIsWs c = false := h c (List.mem_cons_self c t')
    have ht : ∀ d ∈ t', pyIsWs d = false := fun d hd => h d (List.mem_cons_of_mem c hd)
    have := ih ht (c :: acc) (Or.inr (by simp))
    simp only [pySplitAux, hc, Bool.false_eq_true, if_false, List.cons_append,
      List.append_eq] at this ⊢
    rw [this]
    simp

theorem codesToStr_strToCodes (s : String) : codesToStr (strToCodes s) = s := by
  cases s with
  | mk d =>
    simp only [codesToStr, strToCodes]
    congr 1
    induction d with
    | nil => rfl
    | cons c t ih => simp [ih, Char.ofNat_toNat]

/-- An example repository with no files, used by concrete evaluations. -/
def emptyRepo : RepoAccessor :=
  { files := []
    content := fun _ => none
    metadata := fun _ => none }

/-- The repository of the grep scenario in the spec:
`src/app.py` holds `"# TODO fix this"` on line 3. -/
def scenarioRepo : RepoAccessor :=
  { files := ["src/app.py"]
    content := fun p =>
      if p = "src/app.py" then some "import os\nimport sys\n# TODO fix this"
      else none
    metadata := fun p =>
      if p = "src/app.py" then some { name := "app.py", size := 38, language := "python" }
      else none }

/-- A tracker behaviour on which every call succeeds. -/
def tbOk : TrackerBehavior := { createOk := true, updProgressOk := true, updTerminalOk := true }

/-- A tracker behaviour on which every call raises. -/
def tbFail : TrackerBehavior := { createOk := false, updProgressOk := false, updTerminalOk := false }

end Gitmesh

namespace Gitmesh

/-! ## Claim C2 -/

/-- C2, counterexample: the classifier of the interception pipeline,
`_classify_command_type`, classifies the command `"pip install flask"` as
SHELL_COMMAND (the fallback), not as PACKAGE_INSTALL as the claim
states. -/
theorem c2_counterexample :
    classifyCommandType "pip install flask" = ConversionType.SHELL_COMMAND ∧
      ConversionType.SHELL_COMMAND ≠ ConversionType.PACKAGE_INSTALL := by
  constructor
  · rfl
  · decide

/-- C2, amended: the command `"pip install flask"` is classified
SHELL_COMMAND (the fallback); the Interception Gate returns exactly
`(1, "Shell command blocked for web safety: pip install flask")`, and the
pending-conversions list gains exactly that literal command string —
regardless of repository, session, tracker behaviour, wall clock and
prior state. -/
theorem c2_amended (repo : RepoAccessor) (sessionId : Option String)
    (tb : TrackerBehavior) (now : Nat) (st : WrapperState) :
    classifyCommandType "pip install flask" = ConversionType.SHELL_COMMAND ∧
    (interceptShellCommand repo sessionId tb now "pip install flask" st).1 =
      (1, "Shell command blocked for web safety: pip install flask") ∧
    ((interceptShellCommand repo sessionId tb now "pip install flask" st).2.1).status.pending_conversions =
      st.status.pending_conversions ++ ["pip install flask"] := by
  have hconv : convertShellCommand "pip install flask" repo = none := rfl
  refine ⟨rfl, ?_, ?_⟩ <;>
    simp [interceptShellCommand, hconv]

end Gitmesh

namespace Gitmesh

/-! ## Claim C3 -/

/-- Modelled from the spec: string value of each member of the
(spec-modelled) classifier taxonomy `ConversionType`, following the
naming convention of the filter taxonomy. -/
def ConversionType.val : ConversionType → String
  | DIRECTORY_OPERATION => "directory_operation"
  | FILE_OPERATION => "file_operation"
  | SEARCH_OPERATION => "search_operation"
  | GIT_OPERATION => "git_operation"
  | PACKAGE_INSTALL => "package_install"
  | SYSTEM_COMMAND => "system_command"
  | BUILD_COMMAND => "build_command"
  | TEST_COMMAND => "test_command"
  | DEPLOYMENT => "deployment"
  | NETWORK_COMMAND => "network_command"
  | SHELL_COMMAND => "shell_command"

/-- Modelled from the spec: all members of `ConversionType`, in the order
the spec lists the taxonomy. -/
def allConversionTypes : List ConversionType :=
  [ConversionType.DIRECTORY_OPERATION, ConversionType.FILE_OPERATION,
   ConversionType.SEARCH_OPERATION, ConversionType.GIT_OPERATION,
   ConversionType.PACKAGE_INSTALL, ConversionType.SYSTEM_COMMAND,
   ConversionType.BUILD_COMMAND, ConversionType.TEST_COMMAND,
   ConversionType.DEPLOYMENT, ConversionType.NETWORK_COMMAND,
   ConversionType.SHELL_COMMAND]

/-- C3, counterexample: the Response Filter taxonomy `ShellCommandType`
has exactly eight members — not eleven — and contains no member named
`directory_operation`, `search_operation` or `shell_command`, so the two
taxonomies are not identical and neither statement of the claim holds for
it. -/
theorem c3_counterexample :
    (∀ t : ShellCommandType, t ∈ allShellCommandTypes) ∧
    allShellCommandTypes.length = 8 ∧
    (8 : Nat) ≠ 11 ∧
    "directory_operation" ∉ allShellCommandTypes.map ShellCommandType.val ∧
    "search_operation" ∉ allShellCommandTypes.map ShellCommandType.val ∧
    "shell_command" ∉ allShellCommandTypes.map ShellCommandType.val := by
  refine ⟨?_, rfl, by decide, ?_, ?_, ?_⟩
  · intro t; cases t <;> simp [allShellCommandTypes]
  all_goals decide

/-- C3, amended: the two taxonomies differ.  The Response Filter side
consists of exactly the eight members PACKAGE_INSTALL, FILE_OPERATION,
GIT_OPERATION, SYSTEM_COMMAND, BUILD_COMMAND, TEST_COMMAND, DEPLOYMENT
and NETWORK_COMMAND (no duplicates, nothing else), while the classifier
taxonomy of the spec has eleven members; in particular the filter side
lacks the DIRECTORY_OPERATION, SEARCH_OPERATION and SHELL_COMMAND
members, so the two member sets are not equal. -/
theorem c3_amended :
    (∀ t : ShellCommandType, t ∈ allShellCommandTypes) ∧
    allShellCommandTypes.Nodup ∧
    allShellCommandTypes.map ShellCommandType.val =
      ["package_install", "file_operation", "git_operation", "system_command",
       "build_command", "test_command", "deployment", "network_command"] ∧
    allConversionTypes.length = 11 ∧
    ∀ v ∈ ["directory_operation", "search_operation", "shell_command"],
      v ∈ allConversionTypes.map ConversionType.val ∧
        v ∉ allShellCommandTypes.map ShellCommandType.val := by
  refine ⟨?_, by decide, rfl, rfl, by decide⟩
  intro t; cases t <;> simp [allShellCommandTypes]

end Gitmesh

namespace Gitmesh

/-! ## Claim C9 -/

/-- C9: the synthetic `(exit_code, output)` pair and the updated wrapper
state returned by the Interception Gate are identical for every pair of
tracker behaviours — in particular they are the same whether every
tracking call succeeds or every tracking call raises (is swallowed), for
any command, repository, session and prior state. -/
theorem c9_tracking_transparent (repo : RepoAccessor) (sessionId : Option String)
    (tb tb2 : TrackerBehavior) (now : Nat) (command : String) (st : WrapperState) :
    (interceptShellCommand repo sessionId tb now command st).1 =
      (interceptShellCommand repo sessionId tb2 now command st).1 ∧
    (interceptShellCommand repo sessionId tb now command st).2.1 =
      (interceptShellCommand repo sessionId tb2 now command st).2.1 := by
  cases hconv : convertShellCommand command repo with
  | none => cases sessionId <;> simp [interceptShellCommand, hconv]
  | some out =>
    by_cases hout : out = "" <;> cases sessionId <;>
      simp [interceptShellCommand, hconv, hout]

end Gitmesh

namespace Gitmesh

/-! ## Claim C5 -/

theorem intercept_total (repo : RepoAccessor) (sessionId : Option String)
    (tb : TrackerBehavior) (now : Nat) (c : String) (st : WrapperState) :
    ((interceptShellCommand repo sessionId tb now c st).2.1).status.total_operations =
      st.status.total_operations + 1 := by
  cases hconv : convertShellCommand c repo with
  | none => simp [interceptShellCommand, hconv]
  | some out =>
    by_cases hout : out = "" <;> simp [interceptShellCommand, hconv, hout]

theorem intercept_sum (repo : RepoAccessor) (sessionId : Option String)
    (tb : TrackerBehavior) (now : Nat) (c : String) (st : WrapperState) :
    ((interceptShellCommand repo sessionId tb now c st).2.1).status.converted_operations +
      ((interceptShellCommand repo sessionId tb now c st).2.1).status.pending_conversions.length =
    st.status.converted_operations + st.status.pending_conversions.length + 1 := by
  cases hconv : convertShellCommand c repo with
  | none => simp [interceptShellCommand, hconv]; omega
  | some out =>
    by_cases hout : out = "" <;> simp [interceptShellCommand, hconv, hout] <;> omega

theorem intercept_pct0 (repo : RepoAccessor) (sessionId : Option String)
    (tb : TrackerBehavior) (now : Nat) (c : String) (st : WrapperState)
    (h : st.status.converted_operations = 0 → st.status.conversion_percentage = 0) :
    ((interceptShellCommand repo sessionId tb now c st).2.1).status.converted_operations = 0 →
      ((interceptShellCommand repo sessionId tb now c st).2.1).status.conversion_percentage = 0 := by
  cases hconv : convertShellCommand c repo with
  | none => simp [interceptShellCommand, hconv]; exact h
  | some out =>
    by_cases hout : out = ""
    · simp [interceptShellCommand, hconv, hout]; exact h
    · simp [interceptShellCommand, hconv, hout]

theorem runIntercepts_invariant (repo : RepoAccessor) (sessionId : Option String)
    (tb : TrackerBehavior) (now : Nat) :
    ∀ (cmds : List String) (st0 : WrapperState),
      (runIntercepts repo sessionId tb now cmds st0).status.total_operations =
        st0.status.total_operations + cmds.length ∧
      (runIntercepts repo sessionId tb now cmds st0).status.converted_operations +
        (runIntercepts repo sessionId tb now cmds st0).status.pending_conversions.length =
        st0.status.converted_operations + st0.status.pending_conversions.length + cmds.length ∧
      ((st0.status.converted_operations = 0 → st0.status.conversion_percentage = 0) →
        (runIntercepts repo sessionId tb now cmds st0).status.converted_operations = 0 →
          (runIntercepts repo sessionId tb now cmds st0).status.conversion_percentage = 0) := by
  intro cmds
  induction cmds with
  | nil => intro st0; simp [runIntercepts]
  | cons c cs ih =>
    intro st0
    have hstep₁ := intercept_total repo sessionId tb now c st0
    have hstep₂ := intercept_sum repo sessionId tb now c st0
    have hfold : runIntercepts repo sessionId tb now (c :: cs) st0 =
        runIntercepts repo sessionId tb now cs
          ((interceptShellCommand repo sessionId tb now c st0).2.1) := rfl
    rw [hfold]
    obtain ⟨ih₁, ih₂, ih₃⟩ := ih ((interceptShellCommand repo sessionId tb now c st0).2.1)
    refine ⟨by rw [ih₁, hstep₁]; simp; omega, by rw [ih₂, hstep₂]; simp; omega, ?_⟩
    intro h0
    exact ih₃ (intercept_pct0 repo sessionId tb now c st0 h0)

/-- C5, amended: after any sequence of `n` interceptions starting from a
fresh `ConversionStatus`, `total_operations = n` and
`converted_operations + len(pending_conversions) = n` always hold, and
`conversion_percentage` is `0` while no conversion has succeeded; the
percentage equals `converted/total × 100` immediately after any
interception whose conversion produced a truthy (non-empty) output, and
is left unchanged (not recomputed) by an interception that was blocked —
because the conversion returned nothing or the empty string (the source
gate tests `if converted_output:`) — so it can go stale after blocked
interceptions, contrary to the original claim. -/
theorem c5_amended (repo : RepoAccessor) (sessionId : Option String)
    (tb : TrackerBehavior) (now : Nat) (cmds : List String) :
    (runIntercepts repo sessionId tb now cmds freshState).status.total_operations = cmds.length ∧
    (runIntercepts repo sessionId tb now cmds freshState).status.converted_operations +
      (runIntercepts repo sessionId tb now cmds freshState).status.pending_conversions.length =
      cmds.length ∧
    ((runIntercepts repo sessionId tb now cmds freshState).status.converted_operations = 0 →
      (runIntercepts repo sessionId tb now cmds freshState).status.conversion_percentage = 0) ∧
    (∀ (c : String) (st : WrapperState) (out : String),
      convertShellCommand c repo = some out → out ≠ "" →
        ((interceptShellCommand repo sessionId tb now c st).2.1).status.conversion_percentage =
          ((st.status.converted_operations + 1 : Nat) : ℚ) /
            ((st.status.total_operations + 1 : Nat) : ℚ) * 100) ∧
    (∀ (c : String) (st : WrapperState),
      convertShellCommand c repo = none ∨ convertShellCommand c repo = some "" →
        ((interceptShellCommand repo sessionId tb now c st).2.1).status.conversion_percentage =
          st.status.conversion_percentage) := by
  obtain ⟨h1, h2, h3⟩ := runIntercepts_invariant repo sessionId tb now cmds freshState
  refine ⟨by simpa [freshState] using h1, by simpa [freshState] using h2,
    h3 (by intro; rfl), ?_, ?_⟩
  · intro c st out hconv hne
    simp [interceptShellCommand, hconv, hne]
  · intro c st hconv
    rcases hconv with h | h <;> simp [interceptShellCommand, h]

/-- C5, witness: for the two-command sequence below the amended
statement instantiates with all hypotheses discharged: the totals add up
and a successful conversion recomputes the percentage. -/
theorem c5_witness :
    (runIntercepts emptyRepo none tbOk 0 ["mkdir a", "pip install x"] freshState).status.total_operations = 2 ∧
    ((interceptShellCommand emptyRepo none tbOk 0 "mkdir a" freshState).2.1).status.conversion_percentage =
      ((0 + 1 : Nat) : ℚ) / ((0 + 1 : Nat) : ℚ) * 100 := by
  have h := c5_amended emptyRepo none tbOk 0 ["mkdir a", "pip install x"]
  exact ⟨h.1, h.2.2.2.1 "mkdir a" freshState
    "Directory creation is handled automatically in web mode." rfl (by decide)⟩

/-- C5, counterexample: after intercepting `"mkdir a"` (converted) and
then `"pip install x"` (blocked), `total_operations = 2` and
`converted_operations = 1`, but `conversion_percentage` is still `100`
rather than the `converted/total × 100 = 50` the claim requires — the
percentage is not recomputed on failed interceptions. -/
theorem c5_counterexample :
    (runIntercepts emptyRepo none tbOk 0 ["mkdir a", "pip install x"] freshState).status.total_operations = 2 ∧
    (runIntercepts emptyRepo none tbOk 0 ["mkdir a", "pip install x"] freshState).status.converted_operations = 1 ∧
    (runIntercepts emptyRepo none tbOk 0 ["mkdir a", "pip install x"] freshState).status.conversion_percentage = 100 ∧
    (runIntercepts emptyRepo none tbOk 0 ["mkdir a", "pip install x"] freshState).status.conversion_percentage ≠
      ((runIntercepts emptyRepo none tbOk 0 ["mkdir a", "pip install x"] freshState).status.converted_operations : ℚ) /
        ((runIntercepts emptyRepo none tbOk 0 ["mkdir a", "pip install x"] freshState).status.total_operations : ℚ) * 100 := by
  have hpct : (runIntercepts emptyRepo none tbOk 0 ["mkdir a", "pip install x"] freshState).status.conversion_percentage =
      ((1 : Nat) : ℚ) / ((1 : Nat) : ℚ) * 100 := rfl
  have hconv : (runIntercepts emptyRepo none tbOk 0 ["mkdir a", "pip install x"] freshState).status.converted_operations = 1 := rfl
  have htot : (runIntercepts emptyRepo none tbOk 0 ["mkdir a", "pip install x"] freshState).status.total_operations = 2 := rfl
  refine ⟨htot, hconv, ?_, ?_⟩
  · rw [hpct]; norm_num
  · rw [hpct, hconv, htot]; norm_num

end Gitmesh

namespace Gitmesh

/-! ## Claim C1 -/

/-- The classifier only ever produces one of five types: the directory,
file, search and git types, or the `SHELL_COMMAND` fallback. -/
theorem classify_range (cmd : String) :
    classifyCommandType cmd ∈
      [ConversionType.DIRECTORY_OPERATION, ConversionType.FILE_OPERATION,
       ConversionType.SEARCH_OPERATION, ConversionType.GIT_OPERATION,
       ConversionType.SHELL_COMMAND] := by
  unfold classifyCommandType
  cases h1 : startsAny (pyLower (pyStrip cmd)) ["ls", "dir", "find"] <;>
    cases h2 : startsAny (pyLower (pyStrip cmd)) ["cat", "type", "head", "tail", "less", "more"] <;>
      cases h3 : startsAny (pyLower (pyStrip cmd)) ["grep", "awk", "sed"] <;>
        cases h4 : pyStartsWith (pyLower (pyStrip cmd)) "git" <;>
          cases h5 : startsAny (pyLower (pyStrip cmd)) ["mkdir", "rmdir", "rm", "cp", "mv", "touch"] <;>
            simp [h1, h2, h3, h4, h5]

theorem pyStrip_data_git (cmd : String) (h : pyStartsWith (pyStrip cmd) "git" = true) :
    ∃ t : List Char, (pyStrip cmd).data = 'g' :: 'i' :: 't' :: t := by
  have hp := List.isPrefixOf_iff_prefix.mp h
  obtain ⟨t, ht⟩ := hp
  exact ⟨t, ht.symm⟩

/-- C1, amended: the classifier never returns PACKAGE_INSTALL,
SYSTEM_COMMAND, DEPLOYMENT, NETWORK_COMMAND, BUILD_COMMAND or
TEST_COMMAND, so the original claim is vacuous for those six types; for
GIT_OPERATION it is false: every command whose stripped text starts with
lowercase `git` is classified GIT_OPERATION, yet the Converter returns a
refusal string (not NONE) and the Interception Gate returns exit
code 0. -/
theorem c1_amended (cmd : String) (repo : RepoAccessor) (sessionId : Option String)
    (tb : TrackerBehavior) (now : Nat) (st : WrapperState) :
    classifyCommandType cmd ∉
      [ConversionType.PACKAGE_INSTALL, ConversionType.SYSTEM_COMMAND,
       ConversionType.DEPLOYMENT, ConversionType.NETWORK_COMMAND,
       ConversionType.BUILD_COMMAND, ConversionType.TEST_COMMAND] ∧
    (pyStartsWith (pyStrip cmd) "git" = true →
      classifyCommandType cmd = ConversionType.GIT_OPERATION ∧
      convertShellCommand cmd repo = some (gitBlockedMessage (pyStrip cmd)) ∧
      (interceptShellCommand repo sessionId tb now cmd st).1.1 = 0) := by
  constructor
  · intro hcon
    have h := classify_range cmd
    simp only [List.mem_cons, List.not_mem_nil, or_false] at h hcon
    rcases h with h|h|h|h|h <;> rcases hcon with hc|hc|hc|hc|hc|hc <;>
      rw [h] at hc <;> simp at hc
  · intro hgit
    obtain ⟨t, ht⟩ := pyStrip_data_git cmd hgit
    have hconv : convertShellCommand cmd repo = some (gitBlockedMessage (pyStrip cmd)) := by
      unfold convertShellCommand
      simp only [pyStartsWith, ht, List.isPrefixOf]
      simp +decide
    refine ⟨?_, hconv, ?_⟩
    · unfold classifyCommandType
      simp only [startsAny, pyStartsWith, pyLower, ht, List.any_cons, List.any_nil,
        List.map_cons, List.isPrefixOf, Char.toLower]
      simp +decide
    · have hnem : gitBlockedMessage (pyStrip cmd) ≠ "" := by
        unfold gitBlockedMessage
        intro hcon
        have hd := congrArg String.data hcon
        rw [String.data_append] at hd
        exact absurd (List.append_eq_nil.mp hd).1 (by decide)
      simp [interceptShellCommand, hconv, hnem]

/-- C1, witness: the amended statement instantiated at `"git status"`
with its hypothesis discharged. -/
theorem c1_witness :
    classifyCommandType "git status" = ConversionType.GIT_OPERATION ∧
    convertShellCommand "git status" emptyRepo = some (gitBlockedMessage (pyStrip "git status")) ∧
    (interceptShellCommand emptyRepo (some "session") tbOk 0 "git status" freshState).1.1 = 0 :=
  (c1_amended "git status" emptyRepo (some "session") tbOk 0 freshState).2 (by decide)

/-- C1, counterexample: `"git status"` is classified GIT_OPERATION — one
of the seven types the claim covers — yet the Converter returns a
refusal string rather than NONE and the Interception Gate returns exit
code 0 rather than 1. -/
theorem c1_counterexample :
    classifyCommandType "git status" = ConversionType.GIT_OPERATION ∧
    convertShellCommand "git status" emptyRepo =
      some "Git operations are not supported in web mode. Command blocked: git status" ∧
    (interceptShellCommand emptyRepo (some "session") tbOk 0 "git status" freshState).1.1 = 0 :=
  ⟨rfl, rfl, rfl⟩

end Gitmesh

namespace Gitmesh

/-! ## Claim C6 -/

theorem pyStrip_eq_self (s : String)
    (hh : ∀ c, s.data.head? = some c → pyIsWs c = false)
    (hl : ∀ c, s.data.getLast? = some c → pyIsWs c = false) :
    pyStrip s = s := by
  unfold pyStrip pyStripList
  rw [stripEnds_eq pyIsWs s.data hh hl]

theorem pyStripQuotes_eq_self (s : String)
    (hh : ∀ c, s.data.head? = some c → isQuoteCh c = false)
    (hl : ∀ c, s.data.getLast? = some c → isQuoteCh c = false) :
    pyStripQuotes s = s := by
  unfold pyStripQuotes
  rw [stripEnds_eq isQuoteCh s.data hh hl]

/-- Last element of a token is an element of the token. -/
theorem getLast?_mem_of_ne (l : List Char) (c : Char) (h : l.getLast? = some c) :
    c ∈ l := by
  obtain ⟨ys, hy⟩ := List.getLast?_eq_some_iff.mp h
  rw [hy]
  simp

/-- The stripped form of `pre ++ p` where `pre` starts with a
non-whitespace character and every character of the non-empty `p` is
non-whitespace. -/
theorem pyStrip_cmd_token (pre p : String) (c0 : Char)
    (hc0 : pre.data.head? = some c0) (hc0ws : pyIsWs c0 = false)
    (hne : p.data ≠ []) (hws : ∀ c ∈ p.data, pyIsWs c = false) :
    pyStrip (pre ++ p) = pre ++ p := by
  apply pyStrip_eq_self
  · intro c hc
    rw [String.data_append] at hc
    cases hp : pre.data with
    | nil => rw [hp] at hc0; simp at hc0
    | cons a t =>
      rw [hp] at hc hc0
      simp at hc hc0
      rw [← hc, hc0]
      exact hc0ws
  · intro c hc
    rw [String.data_append, List.getLast?_append] at hc
    cases hlast : p.data.getLast? with
    | none =>
      rw [List.getLast?_eq_none_iff] at hlast
      exact absurd hlast hne
    | some d =>
      rw [hlast] at hc
      simp at hc
      rw [hc] at hlast
      exact hws c (getLast?_mem_of_ne p.data c hlast)

/-- C6: the Converter on `cat <path>` (a single whitespace-free path
token) returns exactly the stored content when the path is in the
repository, exactly `"File not found: <path>"` when it is not, and a
`cat` invocation with no filename argument returns the usage string. -/
theorem c6_cat (repo : RepoAccessor) (p : String)
    (hne : p.data ≠ [])
    (hws : ∀ c ∈ p.data, pyIsWs c = false) :
    convertShellCommand ("cat " ++ p) repo =
      some (match repo.content p with
            | none => "File not found: " ++ p
            | some content => content) ∧
    convertShellCommand "cat" repo = some "Usage: cat <filename>" := by
  have hdata : ("cat " ++ p).data = 'c' :: 'a' :: 't' :: ' ' :: p.data := by
    rw [String.data_append]
    rfl
  have hstrip : pyStrip ("cat " ++ p) = "cat " ++ p :=
    pyStrip_cmd_token "cat " p 'c' rfl (by decide) hne hws
  have hsplit : pySplit ("cat " ++ p) = ["cat", p] := by
    unfold pySplit pySplitList
    rw [hdata]
    have h1 : pySplitAux (['c', 'a', 't'] ++ ' ' :: p.data) [] =
        (List.reverse [] ++ ['c', 'a', 't']) :: pySplitAux p.data [] :=
      pySplitAux_token_space ['c', 'a', 't'] p.data (by decide) [] (Or.inl (by simp))
    have h2 : pySplitAux p.data [] = [List.reverse [] ++ p.data] :=
      pySplitAux_token p.data hws [] hne
    have h3 : ('c' :: 'a' :: 't' :: ' ' :: p.data) = ['c', 'a', 't'] ++ ' ' :: p.data := rfl
    rw [h3, h1, h2]
    simp
  have ht : (pyStrip ("cat " ++ p)).data = 'c' :: 'a' :: 't' :: ' ' :: p.data := by
    rw [hstrip, hdata]
  constructor
  · have hc : convertShellCommand ("cat " ++ p) repo =
        some (handleCatFile (pyStrip ("cat " ++ p)) repo) := by
      unfold convertShellCommand
      simp only [pyStartsWith, ht, List.isPrefixOf]
      simp +decide
    rw [hc, hstrip]
    unfold handleCatFile
    rw [hsplit]
  · rfl

/-- C6, witness: the theorem instantiated at path `src/app.py` against the
scenario repository, both hypotheses discharged by `decide`. -/
theorem c6_witness :
    convertShellCommand ("cat " ++ "src/app.py") scenarioRepo =
      some (match scenarioRepo.content "src/app.py" with
            | none => "File not found: " ++ "src/app.py"
            | some content => content) ∧
    convertShellCommand "cat" scenarioRepo = some "Usage: cat <filename>" :=
  c6_cat scenarioRepo "src/app.py" (by decide) (by decide)

/-! ## Claim C7 -/

/-- C7: grep is a naive substring search.  For a command
`grep <pattern> <file>` (whitespace-free tokens) the Converter searches
exactly the requested file; with no file argument it searches every
repository file; and in both cases an empty match list yields the
explicit pattern-not-found message instead of empty output.  Every
emitted match line is `path:line_number:line_content` for a 1-based line
of an existing file whose text contains the (quote-stripped) pattern as
a plain substring. -/
theorem c7_grep (repo : RepoAccessor) (p f : String)
    (hpne : p.data ≠ []) (hpws : ∀ c ∈ p.data, pyIsWs c = false)
    (hfne : f.data ≠ []) (hfws : ∀ c ∈ f.data, pyIsWs c = false) :
    (convertShellCommand ("grep " ++ p ++ " " ++ f) repo =
      some (if (grepMatches (pyStripQuotes p) [f] repo).isEmpty
            then "Pattern \x27" ++ pyStripQuotes p ++ "\x27 not found"
            else strJoinNl (grepMatches (pyStripQuotes p) [f] repo)) ∧
     convertShellCommand ("grep " ++ p) repo =
      some (if (grepMatches (pyStripQuotes p) repo.files repo).isEmpty
            then "Pattern \x27" ++ pyStripQuotes p ++ "\x27 not found"
            else strJoinNl (grepMatches (pyStripQuotes p) repo.files repo))) ∧
    (∀ pat : String, ∀ files : List String, ∀ out ∈ grepMatches pat files repo,
      ∃ fp ∈ files, ∃ content, repo.content fp = some content ∧
        ∃ i line, (splitLines content)[i]? = some line ∧
          pyContains line pat = true ∧
          out = fp ++ ":" ++ toString (i + 1) ++ ":" ++ line) := by
  have hdata : ("grep " ++ p ++ " " ++ f).data =
      'g' :: 'r' :: 'e' :: 'p' :: ' ' :: (p.data ++ ' ' :: f.data) := by
    rw [String.data_append, String.data_append, String.data_append]
    show ((['g', 'r', 'e', 'p', ' '] ++ p.data) ++ [' ']) ++ f.data = _
    simp
  have hstrip : pyStrip ("grep " ++ p ++ " " ++ f) = "grep " ++ p ++ " " ++ f :=
    pyStrip_cmd_token ("grep " ++ p ++ " ") f 'g'
      (by rw [String.data_append, String.data_append]; rfl) (by decide) hfne hfws
  have hsplit : pySplit ("grep " ++ p ++ " " ++ f) = ["grep", p, f] := by
    unfold pySplit pySplitList
    rw [hdata]
    have h3 : ('g' :: 'r' :: 'e' :: 'p' :: ' ' :: (p.data ++ ' ' :: f.data)) =
        ['g', 'r', 'e', 'p'] ++ ' ' :: (p.data ++ ' ' :: f.data) := rfl
    have h1 := pySplitAux_token_space ['g', 'r', 'e', 'p'] (p.data ++ ' ' :: f.data)
      (by decide) [] (Or.inl (by simp))
    have h2 := pySplitAux_token_space p.data f.data hpws [] (Or.inl hpne)
    have h4 := pySplitAux_token f.data hfws [] hfne
    rw [h3, h1, h2, h4]
    simp
  have hdata2 : ("grep " ++ p).data = 'g' :: 'r' :: 'e' :: 'p' :: ' ' :: p.data := by
    rw [String.data_append]
    rfl
  have hstrip2 : pyStrip ("grep " ++ p) = "grep " ++ p :=
    pyStrip_cmd_token "grep " p 'g' rfl (by decide) hpne hpws
  have hsplit2 : pySplit ("grep " ++ p) = ["grep", p] := by
    unfold pySplit pySplitList
    rw [hdata2]
    have h3 : ('g' :: 'r' :: 'e' :: 'p' :: ' ' :: p.data) =
        ['g', 'r', 'e', 'p'] ++ ' ' :: p.data := rfl
    have h1 := pySplitAux_token_space ['g', 'r', 'e', 'p'] p.data (by decide) []
      (Or.inl (by simp))
    have h2 := pySplitAux_token p.data hpws [] hpne
    rw [h3, h1, h2]
    simp
  refine ⟨⟨?_, ?_⟩, ?_⟩
  · have ht : (pyStrip ("grep " ++ p ++ " " ++ f)).data =
        'g' :: 'r' :: 'e' :: 'p' :: ' ' :: (p.data ++ ' ' :: f.data) := by
      rw [hstrip, hdata]
    have hc : convertShellCommand ("grep " ++ p ++ " " ++ f) repo =
        some (handleGrepFiles (pyStrip ("grep " ++ p ++ " " ++ f)) repo) := by
      unfold convertShellCommand
      simp only [pyStartsWith, ht, List.isPrefixOf]
      simp +decide
    rw [hc, hstrip]
    unfold handleGrepFiles
    rw [hsplit]
    rfl
  · have ht : (pyStrip ("grep " ++ p)).data =
        'g' :: 'r' :: 'e' :: 'p' :: ' ' :: p.data := by
      rw [hstrip2, hdata2]
    have hc : convertShellCommand ("grep " ++ p) repo =
        some (handleGrepFiles (pyStrip ("grep " ++ p)) repo) := by
      unfold convertShellCommand
      simp only [pyStartsWith, ht, List.isPrefixOf]
      simp +decide
    rw [hc, hstrip2]
    unfold handleGrepFiles
    rw [hsplit2]
    rfl
  · intro pat files out hout
    unfold grepMatches at hout
    rw [List.mem_flatMap] at hout
    obtain ⟨fp, hfp, hmem⟩ := hout
    refine ⟨fp, hfp, ?_⟩
    cases hcontent : repo.content fp with
    | none => rw [hcontent] at hmem; simp at hmem
    | some content =>
      rw [hcontent] at hmem
      dsimp only at hmem
      refine ⟨content, rfl, ?_⟩
      by_cases hne : content ≠ ""
      · rw [if_pos hne] at hmem
        rw [List.mem_filterMap] at hmem
        obtain ⟨pr, hpr, heq⟩ := hmem
        by_cases hcont : pyContains pr.2 pat = true
        · rw [if_pos hcont] at heq
          refine ⟨pr.1, pr.2, List.mem_enum_iff_getElem?.mp hpr, hcont, ?_⟩
          exact (Option.some.injEq _ _ ▸ heq).symm
        · rw [if_neg hcont] at heq
          exact absurd heq (by simp)
      · rw [if_neg hne] at hmem
        simp at hmem

/-- C7, witness: the spec scenario.  `grep TODO src/app.py` against the
scenario repository, whose `src/app.py` holds `# TODO fix this` on
line 3; the match list evaluates to exactly
`["src/app.py:3:# TODO fix this"]`. -/
theorem c7_witness :
    (convertShellCommand ("grep " ++ "TODO" ++ " " ++ "src/app.py") scenarioRepo =
      some (if (grepMatches (pyStripQuotes "TODO") ["src/app.py"] scenarioRepo).isEmpty
            then "Pattern \x27" ++ pyStripQuotes "TODO" ++ "\x27 not found"
            else strJoinNl (grepMatches (pyStripQuotes "TODO") ["src/app.py"] scenarioRepo))) ∧
    grepMatches (pyStripQuotes "TODO") ["src/app.py"] scenarioRepo =
      ["src/app.py:3:# TODO fix this"] :=
  ⟨(c7_grep scenarioRepo "TODO" "src/app.py" (by decide) (by decide) (by decide)
      (by decide)).1.1, by decide⟩

/-! ## Claim C8 -/

theorem toDigitsCore_len (b : Nat) : ∀ fuel n acc,
    acc.length < (Nat.toDigitsCore b (fuel + 1) n acc).length := by
  intro fuel
  induction fuel with
  | zero =>
    intro n acc
    simp only [Nat.toDigitsCore]
    split <;> simp [Nat.toDigitsCore]
  | succ f ih =>
    intro n acc
    simp only [Nat.toDigitsCore]
    split
    · simp
    · exact Nat.lt_trans (by simp) (ih (n / b) (Nat.digitChar (n % b) :: acc))

/-- The decimal rendering of a natural number is never the empty string. -/
theorem toString_nat_ne_empty (n : Nat) : (toString n).data ≠ [] := by
  have h := toDigitsCore_len 10 n n []
  simp only [List.length_nil] at h
  show (Nat.repr n).data ≠ []
  unfold Nat.repr Nat.toDigits
  intro hcon
  rw [show (Nat.toDigitsCore 10 (n + 1) n []).asString.data =
      Nat.toDigitsCore 10 (n + 1) n [] from rfl] at hcon
  rw [hcon] at h
  simp at h

theorem intercalate_go_data (s : String) : ∀ (bs : List String) (acc : String),
    ∃ t, (String.intercalate.go acc s bs).data = acc.data ++ t := by
  intro bs
  induction bs with
  | nil => intro acc; exact ⟨[], by simp [String.intercalate.go]⟩
  | cons b bs ih =>
    intro acc
    obtain ⟨t, ht⟩ := ih (acc ++ s ++ b)
    refine ⟨s.data ++ b.data ++ t, ?_⟩
    rw [show String.intercalate.go acc s (b :: bs) =
        String.intercalate.go (acc ++ s ++ b) s bs from rfl]
    rw [ht]
    simp [String.data_append]

/-- The joined string starts with the first piece. -/
theorem strJoinNl_cons (a : String) (bs : List String) :
    ∃ t, (strJoinNl (a :: bs)).data = a.data ++ t := by
  unfold strJoinNl
  rw [show String.intercalate "\n" (a :: bs) = String.intercalate.go a "\n" bs from rfl]
  exact intercalate_go_data "\n" bs a

/-- Every line of the `ls` listing is a non-empty string. -/
theorem listLine_ne_empty (repo : RepoAccessor) (fp : String) :
    (listLine repo fp).data ≠ [] := by
  unfold listLine
  cases hm : repo.metadata fp with
  | none =>
    rw [String.data_append]
    simp
  | some m =>
    rw [String.data_append, String.data_append]
    intro hcon
    have h1 := (List.append_eq_nil.mp hcon).1
    have h2 := (List.append_eq_nil.mp h1).1
    unfold padLeft8 at h2
    rw [String.data_append] at h2
    exact toString_nat_ne_empty m.size (List.append_eq_nil.mp h2).2

/-- The width-8 right-aligned field: the padded string is exactly
`max 8` the width of its content. -/
theorem padLeft8_length (s : String) : (padLeft8 s).length = max 8 s.length := by
  unfold padLeft8
  rw [String.length_append]
  rw [show (String.mk (List.replicate (8 - s.length) ' ')).length =
      (List.replicate (8 - s.length) ' ').length from rfl]
  rw [List.length_replicate]
  omega

/-- C8: on a command whose stripped text starts with `ls` or `dir`,
against a repository with a non-empty file list, the Converter returns
the join of exactly one line per repository file, ordered by the string
order on paths (a sorted permutation of the file list), and the joined
listing is a non-empty string.  A line for a file with metadata carries
the size right-aligned in a width-8 field; a file without metadata gets
the `?` marker. -/
theorem c8_ls (repo : RepoAccessor) (cmd : String)
    (hpre : pyStartsWith (pyStrip cmd) "ls" = true ∨
            pyStartsWith (pyStrip cmd) "dir" = true)
    (hne : repo.files ≠ []) :
    convertShellCommand cmd repo =
      some (strJoinNl ((sortedPaths repo.files).map (listLine repo))) ∧
    ((sortedPaths repo.files).map (listLine repo)).length = repo.files.length ∧
    List.Perm (sortedPaths repo.files) repo.files ∧
    List.Sorted (fun a b : String => a ≤ b) (sortedPaths repo.files) ∧
    (strJoinNl ((sortedPaths repo.files).map (listLine repo))).data ≠ [] ∧
    (∀ fp m, repo.metadata fp = some m →
      listLine repo fp = padLeft8 (toString m.size) ++ " " ++ fp ∧
      (padLeft8 (toString m.size)).length = max 8 (toString m.size).length) ∧
    (∀ fp, repo.metadata fp = none → listLine repo fp = "        ? " ++ fp) := by
  have hfe : repo.files.isEmpty = false := by
    cases hf : repo.files with
    | nil => exact absurd hf hne
    | cons a t => rfl
  refine ⟨?_, ?_, ?_, ?_, ?_, ?_, ?_⟩
  · have hcond : (pyStartsWith (pyStrip cmd) "ls" ||
        pyStartsWith (pyStrip cmd) "dir") = true := by
      cases hpre with
      | inl h => simp [h]
      | inr h => simp [h]
    unfold convertShellCommand
    simp only [hcond, if_true]
    unfold handleListFiles
    simp only [hfe, Bool.false_eq_true, if_false]
  · simp [sortedPaths, (List.perm_insertionSort _ _).length_eq]
  · exact List.perm_insertionSort _ _
  · exact List.sorted_insertionSort _ _
  · cases hs : sortedPaths repo.files with
    | nil =>
      have hp := List.perm_insertionSort (fun a b : String => a ≤ b) repo.files
      unfold sortedPaths at hs
      rw [hs] at hp
      exact absurd hp.symm.eq_nil hne
    | cons fp rest =>
      rw [List.map_cons]
      obtain ⟨t, ht⟩ := strJoinNl_cons (listLine repo fp) (rest.map (listLine repo))
      rw [ht]
      intro hcon
      exact listLine_ne_empty repo fp (List.append_eq_nil.mp hcon).1
  · intro fp m hm
    constructor
    · unfold listLine
      rw [hm]
    · exact padLeft8_length (toString m.size)
  · intro fp hm
    unfold listLine
    rw [hm]

/-- C8, witness: the theorem instantiated at `"ls"` against the scenario
repository; both hypotheses discharged by `decide`. -/
theorem c8_witness :
    convertShellCommand "ls" scenarioRepo =
      some (strJoinNl ((sortedPaths scenarioRepo.files).map (listLine scenarioRepo))) ∧
    ((sortedPaths scenarioRepo.files).map (listLine scenarioRepo)).length =
      scenarioRepo.files.length ∧
    List.Perm (sortedPaths scenarioRepo.files) scenarioRepo.files ∧
    List.Sorted (fun a b : String => a ≤ b) (sortedPaths scenarioRepo.files) ∧
    (strJoinNl ((sortedPaths scenarioRepo.files).map (listLine scenarioRepo))).data ≠ [] ∧
    (∀ fp m, scenarioRepo.metadata fp = some m →
      listLine scenarioRepo fp = padLeft8 (toString m.size) ++ " " ++ fp ∧
      (padLeft8 (toString m.size)).length = max 8 (toString m.size).length) ∧
    (∀ fp, scenarioRepo.metadata fp = none →
      listLine scenarioRepo fp = "        ? " ++ fp) :=
  c8_ls scenarioRepo "ls" (Or.inl (by decide)) (by decide)

/-! ## Claim C10 -/

/-- Every substitution step of pass one appends exactly one match record
and bumps both counters by one, so the per-pattern fold preserves the
counter invariant. -/
theorem pass1_fold_pres (ct : ShellCommandType) (alt : String) (orig : List Nat) :
    ∀ (ms : List (Nat × Nat)) (st : Pass1State),
      st.alternatives_suggested = st.security_notes_added →
      st.commands_filtered.length = st.alternatives_suggested →
      ((ms.foldl (fun st m =>
        { content := takeCodes st.content m.1 ++ strToCodes alt ++
                     dropCodes st.content (m.1 + m.2)
          commands_filtered := st.commands_filtered ++
            [{ original_text := codesToStr (takeCodes (dropCodes orig m.1) m.2)
               command_type := ct
               start_pos := m.1
               end_pos := m.1 + m.2
               suggested_alternative := alt }]
          alternatives_suggested := st.alternatives_suggested + 1
          security_notes_added := st.security_notes_added + 1 : Pass1State }) st).alternatives_suggested =
       (ms.foldl (fun st m =>
        { content := takeCodes st.content m.1 ++ strToCodes alt ++
                     dropCodes st.content (m.1 + m.2)
          commands_filtered := st.commands_filtered ++
            [{ original_text := codesToStr (takeCodes (dropCodes orig m.1) m.2)
               command_type := ct
               start_pos := m.1
               end_pos := m.1 + m.2
               suggested_alternative := alt }]
          alternatives_suggested := st.alternatives_suggested + 1
          security_notes_added := st.security_notes_added + 1 : Pass1State }) st).security_notes_added) ∧
      ((ms.foldl (fun st m =>
        { content := takeCodes st.content m.1 ++ strToCodes alt ++
                     dropCodes st.content (m.1 + m.2)
          commands_filtered := st.commands_filtered ++
            [{ original_text := codesToStr (takeCodes (dropCodes orig m.1) m.2)
               command_type := ct
               start_pos := m.1
               end_pos := m.1 + m.2
               suggested_alternative := alt }]
          alternatives_suggested := st.alternatives_suggested + 1
          security_notes_added := st.security_notes_added + 1 : Pass1State }) st).commands_filtered.length =
       (ms.foldl (fun st m =>
        { content := takeCodes st.content m.1 ++ strToCodes alt ++
                     dropCodes st.content (m.1 + m.2)
          commands_filtered := st.commands_filtered ++
            [{ original_text := codesToStr (takeCodes (dropCodes orig m.1) m.2)
               command_type := ct
               start_pos := m.1
               end_pos := m.1 + m.2
               suggested_alternative := alt }]
          alternatives_suggested := st.alternatives_suggested + 1
          security_notes_added := st.security_notes_added + 1 : Pass1State }) st).alternatives_suggested) := by
  intro ms
  induction ms with
  | nil => intro st h1 h2; exact ⟨h1, h2⟩
  | cons m rest ih =>
    intro st h1 h2
    simp only [List.foldl_cons]
    exact ih _ (by simp [h1]) (by simp [h2])

/-- `applyPattern` preserves the counter invariant. -/
theorem applyPattern_invariant (ct : ShellCommandType) (alt : String)
    (st : Pass1State) (r : RE)
    (h1 : st.alternatives_suggested = st.security_notes_added)
    (h2 : st.commands_filtered.length = st.alternatives_suggested) :
    (applyPattern ct alt st r).alternatives_suggested =
      (applyPattern ct alt st r).security_notes_added ∧
    (applyPattern ct alt st r).commands_filtered.length =
      (applyPattern ct alt st r).alternatives_suggested := by
  unfold applyPattern
  exact pass1_fold_pres ct alt st.content (findIter r st.content).reverse st h1 h2

/-- Folding one pattern list preserves the counter invariant. -/
theorem foldl_patterns_invariant (ct : ShellCommandType) (alt : String) :
    ∀ (rs : List RE) (st : Pass1State),
      st.alternatives_suggested = st.security_notes_added →
      st.commands_filtered.length = st.alternatives_suggested →
      ((rs.foldl (applyPattern ct alt) st).alternatives_suggested =
       (rs.foldl (applyPattern ct alt) st).security_notes_added) ∧
      ((rs.foldl (applyPattern ct alt) st).commands_filtered.length =
       (rs.foldl (applyPattern ct alt) st).alternatives_suggested) := by
  intro rs
  induction rs with
  | nil => intro st h1 h2; exact ⟨h1, h2⟩
  | cons r rest ih =>
    intro st h1 h2
    simp only [List.foldl_cons]
    obtain ⟨g1, g2⟩ := applyPattern_invariant ct alt st r h1 h2
    exact ih _ g1 g2

/-- Pass one establishes the counter invariant from the zero state. -/
theorem runPass1_invariant (content : List Nat) :
    (runPass1 content).alternatives_suggested =
      (runPass1 content).security_notes_added ∧
    (runPass1 content).commands_filtered.length =
      (runPass1 content).alternatives_suggested := by
  unfold runPass1
  generalize shellPatternTable = tbl
  have main : ∀ (tbl : List (ShellCommandType × List RE × String)) (st : Pass1State),
      st.alternatives_suggested = st.security_notes_added →
      st.commands_filtered.length = st.alternatives_suggested →
      ((tbl.foldl (fun st entry => entry.2.1.foldl (applyPattern entry.1 entry.2.2) st)
          st).alternatives_suggested =
       (tbl.foldl (fun st entry => entry.2.1.foldl (applyPattern entry.1 entry.2.2) st)
          st).security_notes_added) ∧
      ((tbl.foldl (fun st entry => entry.2.1.foldl (applyPattern entry.1 entry.2.2) st)
          st).commands_filtered.length =
       (tbl.foldl (fun st entry => entry.2.1.foldl (applyPattern entry.1 entry.2.2) st)
          st).alternatives_suggested) := by
    intro tbl
    induction tbl with
    | nil => intro st h1 h2; exact ⟨h1, h2⟩
    | cons e rest ih =>
      intro st h1 h2
      simp only [List.foldl_cons]
      obtain ⟨g1, g2⟩ := foldl_patterns_invariant e.1 e.2.2 e.2.1 st h1 h2
      exact ih _ g1 g2
  exact main tbl _ rfl rfl

/-- C10: in every `filter_response` result the two counters agree, they
count only the pass-one pattern substitutions, and they fall short of
the match-record count exactly when the code-block or inline pass of
`_filter_code_blocks` performed a replacement (those passes append match
records without touching either counter). -/
theorem c10_counters (content : String) :
    (filterResponse content).alternatives_suggested =
      (filterResponse content).security_notes_added ∧
    (filterResponse content).commands_filtered.length =
      (filterResponse content).alternatives_suggested +
        (filterCodeBlocks (runPass1 (strToCodes content)).content).2.length ∧
    (filterResponse content).alternatives_suggested ≤
      (filterResponse content).commands_filtered.length ∧
    ((filterResponse content).alternatives_suggested <
        (filterResponse content).commands_filtered.length ↔
      (filterCodeBlocks (runPass1 (strToCodes content)).content).2 ≠ []) := by
  obtain ⟨h1, h2⟩ := runPass1_invariant (strToCodes content)
  have hcf : (filterResponse content).commands_filtered =
      (runPass1 (strToCodes content)).commands_filtered ++
      (filterCodeBlocks (runPass1 (strToCodes content)).content).2 := by
    simp only [filterResponse]
  have halt : (filterResponse content).alternatives_suggested =
      (runPass1 (strToCodes content)).alternatives_suggested := by
    simp only [filterResponse]
  have hsec : (filterResponse content).security_notes_added =
      (runPass1 (strToCodes content)).security_notes_added := by
    simp only [filterResponse]
  rw [hcf, halt, hsec, List.length_append, h2]
  refine ⟨h1, rfl, Nat.le_add_right _ _, ?_⟩
  rw [← List.length_pos]
  omega

/-! ## Claim C4 -/

/-- A pattern with no matches leaves the pass-one state untouched. -/
theorem applyPattern_nil (ct : ShellCommandType) (alt : String)
    (st : Pass1State) (r : RE) (h : findIter r st.content = []) :
    applyPattern ct alt st r = st := by
  simp only [applyPattern, h, List.reverse_nil, List.foldl_nil]

/-- A pattern list none of whose members matches leaves the state
untouched. -/
theorem foldl_patterns_nil (ct : ShellCommandType) (alt : String) :
    ∀ (rs : List RE) (st : Pass1State),
      (∀ r ∈ rs, findIter r st.content = []) →
      rs.foldl (applyPattern ct alt) st = st := by
  intro rs
  induction rs with
  | nil => intro st _; rfl
  | cons r rest ih =>
    intro st h
    have h0 : applyPattern ct alt st r = st :=
      applyPattern_nil ct alt st r (h r (List.mem_cons_self r rest))
    rw [List.foldl_cons, h0]
    exact ih st (fun q hq => h q (List.mem_cons_of_mem r hq))

/-- Pass one is the identity on content no table pattern matches. -/
theorem runPass1_nil (content : List Nat)
    (h : ∀ e ∈ shellPatternTable, ∀ r ∈ e.2.1, findIter r content = []) :
    runPass1 content =
      { content := content
        commands_filtered := []
        alternatives_suggested := 0
        security_notes_added := 0 } := by
  unfold runPass1
  have main : ∀ (tbl : List (ShellCommandType × List RE × String)) (st : Pass1State),
      (∀ e ∈ tbl, ∀ r ∈ e.2.1, findIter r st.content = []) →
      tbl.foldl (fun st entry => entry.2.1.foldl (applyPattern entry.1 entry.2.2) st) st = st := by
    intro tbl
    induction tbl with
    | nil => intro st _; rfl
    | cons e rest ih =>
      intro st h
      have h0 : e.2.1.foldl (applyPattern e.1 e.2.2) st = st :=
        foldl_patterns_nil e.1 e.2.2 e.2.1 st (h e (List.mem_cons_self e rest))
      rw [List.foldl_cons, h0]
      exact ih st (fun q hq => h q (List.mem_cons_of_mem e hq))
  exact main shellPatternTable _ h

/-- The code-block and inline passes are the identity on content neither
of their patterns matches. -/
theorem filterCodeBlocks_nil (content : List Nat)
    (hb : findIter codeBlockPattern content = [])
    (hi : findIter inlineCodePattern content = []) :
    filterCodeBlocks content = (content, []) := by
  simp only [filterCodeBlocks, hb, hi, List.foldl_nil]

/-- C4, amended: on input none of whose text matches a shell pattern, the
fenced-code-block pattern or the inline-code pattern — the shape of
previously-filtered explanatory text assumed by the claim — the filter
is the identity, and re-running it therefore changes nothing.  (Without
that restriction re-running is not idempotent: the substituted
explanatory text does contain further shell-command-shaped substrings;
see the counterexample.) -/
theorem c4_amended (content : String)
    (hp : ∀ e ∈ shellPatternTable, ∀ r ∈ e.2.1, findIter r (strToCodes content) = [])
    (hb : findIter codeBlockPattern (strToCodes content) = [])
    (hi : findIter inlineCodePattern (strToCodes content) = []) :
    (filterResponse content).filtered_content = content ∧
    (filterResponse ((filterResponse content).filtered_content)).filtered_content =
      (filterResponse content).filtered_content := by
  have hrun := runPass1_nil (strToCodes content) hp
  have hfc : (filterResponse content).filtered_content = content := by
    simp only [filterResponse, hrun]
    rw [filterCodeBlocks_nil (strToCodes content) hb hi]
    exact codesToStr_strToCodes content
  exact ⟨hfc, by rw [hfc]; exact hfc⟩

set_option maxRecDepth 100000
set_option maxHeartbeats 8000000

/-- First stage of the counterexample computation: pass one on `c4input`
produces `c4pass1`. -/
theorem c4_step1 :
    ((runPass1 (strToCodes c4input)).content == strToCodes c4pass1) = true := by rfl

/-- Second stage: the code-block pass collapses the rewritten fence of
`c4pass1` to the block security message `c4once`. -/
theorem c4_step2 :
    (codesToStr (filterCodeBlocks (strToCodes c4pass1)).1 == c4once) = true := by rfl

/-- Third stage: filtering the already-filtered `c4once` changes it
again (the block security message itself contains shell-command-shaped
substrings). -/
theorem c4_step3 :
    ((filterResponse c4once).filtered_content == c4once) = false := by rfl

/-- C4, counterexample: the output of `filter_response` on a fenced pip
command is the block security message, and running the filter on that
output alters it again — the claimed idempotence on previously-filtered
text fails, because the substituted explanatory text does contain
shell-command-shaped substrings. -/
theorem c4_counterexample :
    (filterResponse ((filterResponse c4input).filtered_content)).filtered_content ≠
      (filterResponse c4input).filtered_content := by
  have h1 : (runPass1 (strToCodes c4input)).content = strToCodes c4pass1 :=
    eq_of_beq c4_step1
  have h2 : codesToStr (filterCodeBlocks (strToCodes c4pass1)).1 = c4once :=
    eq_of_beq c4_step2
  have hfc : (filterResponse c4input).filtered_content = c4once := by
    simp only [filterResponse]
    rw [h1, h2]
  rw [hfc]
  exact ne_of_beq_false c4_step3

/-- C4, witness: the amended theorem instantiated at plain prose that no
pattern matches; all three hypotheses discharged by `decide`. -/
theorem c4_witness :
    (filterResponse "All done.").filtered_content = "All done." ∧
    (filterResponse ((filterResponse "All done.").filtered_content)).filtered_content =
      (filterResponse "All done.").filtered_content :=
  c4_amended "All done." (by decide) (by decide) (by decide)

end Gitmesh
